import Mathlib

/-!
Shallow embedding of the authentication subsystem of the
La-ultima-apuesta backend (`API/auth/security.py`,
`API/crud/usuario_crud.py`, `API/entities/usuario.py`), together with
theorems settling the behavioural claims about password hashing and
verification, password strength validation, token expiry, and the user
CRUD operations.

Conventions of the embedding:
* Python strings are Lean `String`s; the string primitives used by the
  source (`split`, `lower`, `strip`, membership) are modelled character
  by character below, with the ASCII behaviour the source relies on.
* The PBKDF2-HMAC-SHA256 derivation (`hashlib.pbkdf2_hmac(...).hex()`)
  is a library call, not repository code; it is kept abstract as a
  function parameter `H : String → String → String` taking the
  plaintext and the salt.  Salts drawn by `secrets.token_hex(32)` and
  hex digests never contain the `:` separator; theorems carry that as a
  hypothesis where it matters.
* Fallible Python code (raising `ValueError`) returns `Except String`.
* The SQLAlchemy session is a `List Usuario`; `commit`/`refresh` of an
  update stamps `fecha_actualizacion` (the column's `onupdate` hook)
  with the commit time passed in as a parameter.
-/

/-! ### Python string primitives -/

/-- Push a character onto the first piece of a split result. -/
def consHead (c : Char) : List (List Char) → List (List Char)
  | [] => [[c]]
  | h :: t => (c :: h) :: t

/-- Python `str.split(sep)` for a one-character separator: splits on every
occurrence, keeping empty pieces, so the result always has
`count sep + 1` pieces (`"".split(":") = [""]`). -/
def pySplit (sep : Char) : List Char → List (List Char)
  | [] => [[]]
  | c :: cs =>
    if c = sep then [] :: pySplit sep cs
    else consHead c (pySplit sep cs)

/-- Python `str.lower()` (the source only ever lower-cases ASCII
usernames and e-mail addresses). -/
def pyLower (s : String) : String :=
  String.mk (s.data.map Char.toLower)

/-- Python `str.strip()`: drop leading and trailing whitespace. -/
def pyStrip (s : String) : String :=
  String.mk (((s.data.dropWhile Char.isWhitespace).reverse.dropWhile
    Char.isWhitespace).reverse)

/-! ### PasswordManager (`API/auth/security.py`) -/

/-- `PasswordManager.hash_password`, for one drawn salt: returns
`f"{salt}:{password_hash.hex()}"` where the derived value is
`H password salt` (PBKDF2-HMAC-SHA256, 100000 iterations, kept
abstract). -/
def hash_password (H : String → String → String) (salt password : String) :
    String :=
  salt ++ ":" ++ H password salt

/-- `PasswordManager.verify_password`: split the stored digest on `":"`,
recompute the derivation from the supplied plaintext and the recovered
salt, compare.  A split that does not yield exactly two pieces raises
`ValueError` in the source, which is caught and turned into `False`. -/
def verify_password (H : String → String → String)
    (password stored : String) : Bool :=
  match pySplit ':' stored.data with
  | [saltCs, hashCs] =>
    if H password (String.mk saltCs) = String.mk hashCs then true else false
  | _ => false

/-- `verify_password` on a digest that is not a string at all
(`None`): the attribute access raises `AttributeError`, which the
source catches and turns into `False`. -/
def verify_password_any (H : String → String → String) (password : String) :
    Option String → Bool
  | none => false
  | some stored => verify_password H password stored

/-- The fixed special-character set of
`PasswordManager.validate_password_strength`. -/
def specialChars : String := "!@#$%^&*()_+-=[]\x7b\x7d|;:,.<>?"

/-- `PasswordManager.validate_password_strength`: ordered rules, first
failure wins; total (never raises). -/
def validate_password_strength (password : String) : Bool × String :=
  if password.length < 8 then
    (false, "La contraseña debe tener al menos 8 caracteres")
  else if 128 < password.length then
    (false, "La contraseña no puede exceder 128 caracteres")
  else if password.data.any Char.isUpper = false then
    (false, "La contraseña debe contener al menos una letra mayúscula")
  else if password.data.any Char.isLower = false then
    (false, "La contraseña debe contener al menos una letra minúscula")
  else if password.data.any Char.isDigit = false then
    (false, "La contraseña debe contener al menos un número")
  else if password.data.any (fun c => specialChars.data.contains c) = false then
    (false, "La contraseña debe contener al menos un carácter especial")
  else
    (true, "Contraseña válida")

/-- The alphabet of `PasswordManager.generate_secure_password`:
`string.ascii_letters + string.digits` followed by the special set. -/
def genCharset : String :=
  "abcdefghijklmnopqrstuvwxyzABCDEFGHIJKLMNOPQRSTUVWXYZ0123456789"
    ++ specialChars

/-- The possible outputs of `PasswordManager.generate_secure_password n`:
`secrets.choice` draws each of the `n` characters independently and
uniformly from `genCharset`, so exactly the length-`n` strings over that
alphabet can be produced. -/
def canGenerate (n : Nat) (p : String) : Prop :=
  p.length = n ∧ ∀ c ∈ p.data, c ∈ genCharset.data

instance (n : Nat) (p : String) : Decidable (canGenerate n p) := by
  unfold canGenerate; infer_instance

/-! ### TokenManager (`API/auth/security.py`) -/

/-- `ACCESS_TOKEN_EXPIRE_MINUTES = 60 * 24`. -/
def ACCESS_TOKEN_EXPIRE_MINUTES : Int := 60 * 24

/-- The payload assembled by `TokenManager.create_access_token`:
caller-supplied claims plus `exp`, `iat` and the fixed type marker
(times in seconds since the epoch). -/
structure TokenPayload where
  claims : List (String × String)
  exp : Int
  iat : Int
  typ : String
deriving DecidableEq, Repr

/-- Python truthiness of the `expires_delta : timedelta = None`
argument: `None` and `timedelta(0)` are falsy, every other delta is
truthy. -/
def timedeltaTruthy : Option Int → Bool
  | none => false
  | some d => d != 0

/-- `TokenManager.create_access_token`: `if expires_delta:` picks the
custom delta, otherwise `now + ACCESS_TOKEN_EXPIRE_MINUTES` minutes;
`exp`, `iat` and `"type": "access_token"` are added to the claims. -/
def create_access_token (data : List (String × String)) (now : Int)
    (expires_delta : Option Int) : TokenPayload :=
  { claims := data
    exp :=
      if timedeltaTruthy expires_delta then now + expires_delta.getD 0
      else now + ACCESS_TOKEN_EXPIRE_MINUTES * 60
    iat := now
    typ := "access_token" }

/-- The expiry test of `TokenManager.verify_token` (`jwt.decode` raises
`ExpiredSignatureError`, wrapped into `JWTError`, exactly when the
token's `exp` lies before the verification time). -/
def token_expired (t : TokenPayload) (at_time : Int) : Bool :=
  t.exp < at_time

/-! ### The Usuario record (`API/entities/usuario.py`) -/

/-- The `usuarios` row as the CRUD layer sees it.  `id` stands for the
UUID primary key, the two `fecha` fields for the registration and
last-update timestamps. -/
structure Usuario where
  id : Int
  nombre : String
  nombre_usuario : String
  email : String
  telefono : Option String
  contrasena_hash : String
  edad : Option String
  saldo_inicial : Option Int
  activo : Bool
  es_admin : Bool
  fecha_registro : Int
  fecha_actualizacion : Int
deriving DecidableEq, Repr

/-! ### UsuarioCRUD validators (`API/crud/usuario_crud.py`) -/

/-- Character class `[a-zA-Z0-9._%+-]` of the e-mail regex local part. -/
def emailLocalChar (c : Char) : Bool :=
  c.isAlpha || c.isDigit || c = '.' || c = '_' || c = '%' || c = '+' || c = '-'

/-- Character class `[a-zA-Z0-9.-]` of the e-mail regex domain part. -/
def emailDomainChar (c : Char) : Bool :=
  c.isAlpha || c.isDigit || c = '.' || c = '-'

/-- Match of the domain against `[a-zA-Z0-9.-]+\.[a-zA-Z]\x7b2,\x7d`:
only the last dot can separate the class-plus part from the final
letters-only label, so the pattern matches exactly when the piece after
the last dot is two or more letters and the non-empty rest lies in the
class. -/
def emailDomainOk (cs : List Char) : Bool :=
  match (pySplit '.' cs).reverse with
  | [] => false
  | tld :: rest =>
    decide (2 ≤ tld.length) && tld.all Char.isAlpha &&
      !rest.isEmpty && !(rest = [[]] : Bool) &&
      rest.all (fun piece => piece.all emailDomainChar)

/-- `UsuarioCRUD._validar_email`: anchored match of
`[a-zA-Z0-9._%+-]+@[a-zA-Z0-9.-]+\.[a-zA-Z]\x7b2,\x7d`; neither class
contains `@`, so the string must split into exactly one local and one
domain part. -/
def validar_email (email : String) : Bool :=
  match pySplit '@' email.data with
  | [localCs, domainCs] =>
    !localCs.isEmpty && localCs.all emailLocalChar && emailDomainOk domainCs
  | _ => false

/-- Character class `[\d\s\-\(\)]` of the phone regex. -/
def telefonoChar (c : Char) : Bool :=
  c.isDigit || c.isWhitespace || c = '-' || c = '(' || c = ')'

/-- `UsuarioCRUD._validar_telefono`: anchored match of
`\+?[\d\s\-\(\)]\x7b7,15\x7d`. -/
def validar_telefono (telefono : String) : Bool :=
  let body :=
    match telefono.data with
    | '+' :: rest => rest
    | l => l
  decide (7 ≤ body.length) && decide (body.length ≤ 15) &&
    body.all telefonoChar

/-- `UsuarioCRUD._validar_nombre_usuario`: anchored match of
`[a-zA-Z0-9_]\x7b3,20\x7d`. -/
def validar_nombre_usuario (nombre_usuario : String) : Bool :=
  decide (3 ≤ nombre_usuario.length) && decide (nombre_usuario.length ≤ 20) &&
    nombre_usuario.data.all (fun c => c.isAlpha || c.isDigit || c = '_')

/-! ### UsuarioCRUD lookups and authentication -/

/-- `UsuarioCRUD.obtener_usuario`: first row with the given id. -/
def obtener_usuario (db : List Usuario) (usuario_id : Int) : Option Usuario :=
  db.find? (fun u => u.id == usuario_id)

/-- `UsuarioCRUD.obtener_usuario_por_email`: the probe is lower-cased
then trimmed (`email.lower().strip()`). -/
def obtener_usuario_por_email (db : List Usuario) (email : String) :
    Option Usuario :=
  db.find? (fun u => u.email == pyStrip (pyLower email))

/-- `UsuarioCRUD.obtener_usuario_por_nombre_usuario`: the probe is
lower-cased then trimmed. -/
def obtener_usuario_por_nombre_usuario (db : List Usuario)
    (nombre_usuario : String) : Option Usuario :=
  db.find? (fun u => u.nombre_usuario == pyStrip (pyLower nombre_usuario))

/-- The identifier resolution inside `UsuarioCRUD.autenticar_usuario`:
first by username, and only when that fails, by e-mail. -/
def resolveIdent (db : List Usuario) (ident : String) : Option Usuario :=
  match obtener_usuario_por_nombre_usuario db ident with
  | some u => some u
  | none => obtener_usuario_por_email db ident

/-- `UsuarioCRUD.autenticar_usuario`: resolve, reject missing or
inactive accounts and wrong passwords, all with the same `none`. -/
def autenticar_usuario (H : String → String → String) (db : List Usuario)
    (ident contrasena : String) : Option Usuario :=
  match resolveIdent db ident with
  | none => none
  | some usuario =>
    if usuario.activo = false then none
    else if verify_password H contrasena usuario.contrasena_hash then
      some usuario
    else none

/-! ### UsuarioCRUD.crear_usuario -/

/-- Python truthiness test `if telefono and not self._validar_telefono(telefono)`
of the optional phone argument: `None` and the empty string are falsy
and skip validation. -/
def telefonoBad : Option String → Bool
  | none => false
  | some t => (t != "") && !(validar_telefono t)

/-- `UsuarioCRUD.crear_usuario`: the ordered validations, then the
construction of the row (normalized username and e-mail, hashed
password, `activo` defaulting to true, both timestamps defaulting to
the creation time) and the single write appending it to the store.
All error paths return before the write, so the store embedded in the
`ok` result is the only place a new row ever appears.  `hashFn` stands
for `PasswordManager.hash_password` with its freshly drawn salt,
`freshId` for the `uuid4` default, `now` for `datetime.now`. -/
def crear_usuario (hashFn : String → String) (freshId : Int) (now : Int)
    (db : List Usuario) (nombre nombre_usuario email contrasena : String)
    (telefono : Option String) (edad : Option String)
    (saldo_inicial : Option Int) (es_admin : Bool) :
    Except String (Usuario × List Usuario) :=
  if nombre = "" ∨ (pyStrip nombre).length = 0 then
    Except.error "El nombre es obligatorio"
  else if 100 < nombre.length then
    Except.error "El nombre no puede exceder 100 caracteres"
  else if nombre_usuario = "" ∨ validar_nombre_usuario nombre_usuario = false then
    Except.error
      "El nombre de usuario debe tener entre 3-20 caracteres y solo contener letras, números y guiones bajos"
  else if (obtener_usuario_por_nombre_usuario db nombre_usuario).isSome = true then
    Except.error "El nombre de usuario ya está registrado"
  else if email = "" ∨ validar_email email = false then
    Except.error "Email inválido"
  else if (obtener_usuario_por_email db email).isSome = true then
    Except.error "El email ya está registrado"
  else if contrasena = "" then
    Except.error "La contraseña es obligatoria"
  else if (validate_password_strength contrasena).1 = false then
    Except.error
      ("Contraseña inválida: " ++ (validate_password_strength contrasena).2)
  else if telefonoBad telefono = true then
    Except.error "Formato de teléfono inválido"
  else
    let usuario : Usuario :=
      { id := freshId
        nombre := pyStrip nombre
        nombre_usuario := pyLower (pyStrip nombre_usuario)
        email := pyLower (pyStrip email)
        telefono := telefono
        contrasena_hash := hashFn contrasena
        edad := edad
        saldo_inicial := saldo_inicial
        activo := true
        es_admin := es_admin
        fecha_registro := now
        fecha_actualizacion := now }
    Except.ok (usuario, db ++ [usuario])

/-! ### UsuarioCRUD.actualizar_usuario -/

/-- A Python value as it can appear in the `**kwargs` patch of
`actualizar_usuario`. -/
inductive PyVal where
  | vstr : String → PyVal
  | vbool : Bool → PyVal
  | vint : Int → PyVal
  | vnone : PyVal
deriving DecidableEq, Repr

/-- Python truthiness of a patch value. -/
def PyVal.truthy : PyVal → Bool
  | .vstr s => s != ""
  | .vbool b => b
  | .vint n => n != 0
  | .vnone => false

/-- The `**kwargs` dict, in insertion order with unique keys. -/
abbrev Patch := List (String × PyVal)

/-- Dict membership / item access: value of the first entry with the
given key. -/
def lookupKey (k : String) : Patch → Option PyVal
  | [] => none
  | (k2, v) :: rest => if k2 = k then some v else lookupKey k rest

/-- Dict assignment `kwargs[k] = v`: replace the value in place when the
key is present, append a new entry otherwise. -/
def setKey (k : String) (v : PyVal) : Patch → Patch
  | [] => [(k, v)]
  | (k2, w) :: rest =>
    if k2 = k then (k2, v) :: rest else (k2, w) :: setKey k v rest

/-- Dict deletion `del kwargs[k]`: drop the entry with the given key. -/
def delKey (k : String) : Patch → Patch
  | [] => []
  | (k2, w) :: rest => if k2 = k then rest else (k2, w) :: delKey k rest

/-- The attribute names a `Usuario` instance exposes (`hasattr`): the
twelve mapped columns and the three relationship collections. -/
def usuarioAttrs : List String :=
  ["id", "nombre", "nombre_usuario", "email", "telefono",
   "contrasena_hash", "edad", "saldo_inicial", "activo", "es_admin",
   "fecha_registro", "fecha_actualizacion", "partidas", "boletos",
   "historial_saldo"]

/-- The integer carried by a patch value, or a default. -/
def PyVal.intOr : PyVal → Int → Int
  | .vint n, _ => n
  | _, d => d

/-- The string carried by a patch value, or a default. -/
def PyVal.strOr : PyVal → String → String
  | .vstr s, _ => s
  | _, d => d

/-- The optional string carried by a patch value, or a default. -/
def PyVal.optStrOr : PyVal → Option String → Option String
  | .vstr s, _ => some s
  | .vnone, _ => none
  | _, d => d

/-- The optional integer carried by a patch value, or a default. -/
def PyVal.optIntOr : PyVal → Option Int → Option Int
  | .vint n, _ => some n
  | .vnone, _ => none
  | _, d => d

/-- The boolean carried by a patch value, or a default. -/
def PyVal.boolOr : PyVal → Bool → Bool
  | .vbool b, _ => b
  | _, d => d

/-- `setattr(usuario, key, value)`, field by field: the named column
takes the patched value when the value has the column's type (the only
shape the routes ever send), every other field keeps its value;
assignments to non-column attributes have no column effect. -/
def pySetattr (u : Usuario) (k : String) (v : PyVal) : Usuario :=
  { id := if k = "id" then v.intOr u.id else u.id
    nombre := if k = "nombre" then v.strOr u.nombre else u.nombre
    nombre_usuario := if k = "nombre_usuario" then v.strOr u.nombre_usuario
      else u.nombre_usuario
    email := if k = "email" then v.strOr u.email else u.email
    telefono := if k = "telefono" then v.optStrOr u.telefono else u.telefono
    contrasena_hash := if k = "contrasena_hash" then
      v.strOr u.contrasena_hash else u.contrasena_hash
    edad := if k = "edad" then v.optStrOr u.edad else u.edad
    saldo_inicial := if k = "saldo_inicial" then v.optIntOr u.saldo_inicial
      else u.saldo_inicial
    activo := if k = "activo" then v.boolOr u.activo else u.activo
    es_admin := if k = "es_admin" then v.boolOr u.es_admin else u.es_admin
    fecha_registro := if k = "fecha_registro" then v.intOr u.fecha_registro
      else u.fecha_registro
    fecha_actualizacion := if k = "fecha_actualizacion" then
      v.intOr u.fecha_actualizacion else u.fecha_actualizacion }

/-- The final loop of `actualizar_usuario`:
`for key, value in kwargs.items(): if hasattr(usuario, key): setattr(...)`. -/
def applyPatch (u : Usuario) : Patch → Usuario
  | [] => u
  | (k, v) :: rest =>
    applyPatch (if usuarioAttrs.contains k then pySetattr u k v else u) rest

/-- The `"email" in kwargs` block of `actualizar_usuario`: format check,
uniqueness check against any other row, then normalization of the
pending value.  A non-string value would make `re.match` raise
`TypeError`, propagated like any other exception. -/
def pasoEmail (db : List Usuario) (usuario_id : Int) (kwargs : Patch) :
    Except String Patch :=
  match lookupKey "email" kwargs with
  | none => Except.ok kwargs
  | some (.vstr email) =>
    if validar_email email = false then Except.error "Email inválido"
    else
      match obtener_usuario_por_email db email with
      | some otro =>
        if otro.id ≠ usuario_id then
          Except.error "El email ya está registrado"
        else
          Except.ok (setKey "email" (.vstr (pyStrip (pyLower email))) kwargs)
      | none =>
        Except.ok (setKey "email" (.vstr (pyStrip (pyLower email))) kwargs)
  | some _ => Except.error "TypeError: email"

/-- The `"telefono" in kwargs and kwargs["telefono"]` block: falsy
values (including the empty string and `None`) skip validation. -/
def pasoTelefono (kwargs : Patch) : Except String Patch :=
  match lookupKey "telefono" kwargs with
  | none => Except.ok kwargs
  | some v =>
    if v.truthy = false then Except.ok kwargs
    else
      match v with
      | .vstr t =>
        if validar_telefono t = false then
          Except.error "Formato de teléfono inválido"
        else Except.ok (setKey "telefono" (.vstr (pyStrip t)) kwargs)
      | _ => Except.error "TypeError: telefono"

/-- The `"nombre" in kwargs` block. -/
def pasoNombre (kwargs : Patch) : Except String Patch :=
  match lookupKey "nombre" kwargs with
  | none => Except.ok kwargs
  | some (.vstr nombre) =>
    if nombre = "" ∨ (pyStrip nombre).length = 0 then
      Except.error "El nombre es obligatorio"
    else if 100 < nombre.length then
      Except.error "El nombre no puede exceder 100 caracteres"
    else Except.ok (setKey "nombre" (.vstr (pyStrip nombre)) kwargs)
  | some _ => Except.error "TypeError: nombre"

/-- The `"nombre_usuario" in kwargs` block. -/
def pasoNombreUsuario (db : List Usuario) (usuario_id : Int)
    (kwargs : Patch) : Except String Patch :=
  match lookupKey "nombre_usuario" kwargs with
  | none => Except.ok kwargs
  | some (.vstr nu) =>
    if nu = "" ∨ validar_nombre_usuario nu = false then
      Except.error
        "El nombre de usuario debe tener entre 3-20 caracteres y solo contener letras, números y guiones bajos"
    else
      match obtener_usuario_por_nombre_usuario db nu with
      | some otro =>
        if otro.id ≠ usuario_id then
          Except.error "El nombre de usuario ya está registrado"
        else
          Except.ok (setKey "nombre_usuario" (.vstr (pyLower (pyStrip nu))) kwargs)
      | none =>
        Except.ok (setKey "nombre_usuario" (.vstr (pyLower (pyStrip nu))) kwargs)
  | some _ => Except.error "TypeError: nombre_usuario"

/-- The `"contrasena" in kwargs` block: strength check, then the hash is
stored under `"contrasena_hash"` and the plaintext entry deleted. -/
def pasoContrasena (hashFn : String → String) (kwargs : Patch) :
    Except String Patch :=
  match lookupKey "contrasena" kwargs with
  | none => Except.ok kwargs
  | some (.vstr contrasena) =>
    if (validate_password_strength contrasena).1 = false then
      Except.error
        ("Contraseña inválida: " ++ (validate_password_strength contrasena).2)
    else
      Except.ok (delKey "contrasena"
        (setKey "contrasena_hash" (.vstr (hashFn contrasena)) kwargs))
  | some _ => Except.error "TypeError: contrasena"

/-- `UsuarioCRUD.actualizar_usuario`: `None` for an unknown id
(`Except.ok none`), otherwise the validation blocks in source order,
the apply loop, and the commit, which stamps `fecha_actualizacion`
(its `onupdate` hook) and leaves every other row untouched. -/
def actualizar_usuario (hashFn : String → String) (now : Int)
    (db : List Usuario) (usuario_id : Int) (kwargs : Patch) :
    Except String (Option (Usuario × List Usuario)) :=
  match obtener_usuario db usuario_id with
  | none => Except.ok none
  | some usuario => do
    let k1 ← pasoEmail db usuario_id kwargs
    let k2 ← pasoTelefono k1
    let k3 ← pasoNombre k2
    let k4 ← pasoNombreUsuario db usuario_id k3
    let k5 ← pasoContrasena hashFn k4
    let u2 := { applyPatch usuario k5 with fecha_actualizacion := now }
    Except.ok (some (u2, db.map (fun x => if x.id = usuario_id then u2 else x)))

/-- `UsuarioCRUD.desactivar_usuario`: literally
`self.actualizar_usuario(usuario_id, activo=False)`. -/
def desactivar_usuario (hashFn : String → String) (now : Int)
    (db : List Usuario) (usuario_id : Int) :
    Except String (Option (Usuario × List Usuario)) :=
  actualizar_usuario hashFn now db usuario_id [("activo", PyVal.vbool false)]

/-- DEFBLOCK A concrete row exactly as `crear_usuario` builds it from
name "Alice", username "alice", e-mail "A@x.com", password "Abcdef1!"
and hash function prefixing "73:". -/
def sampleAlice : Usuario :=
  { id := 1, nombre := "Alice", nombre_usuario := "alice",
    email := "a@x.com", telefono := none,
    contrasena_hash := "73:Abcdef1!", edad := some "30",
    saldo_inicial := some 0, activo := true, es_admin := false,
    fecha_registro := 0, fecha_actualizacion := 0 }

/-! ### Lemmas about `pySplit` -/

theorem consHead_ne_nil (c : Char) (l : List (List Char)) :
    consHead c l ≠ [] := by
  cases l <;> simp [consHead]

theorem consHead_length (c : Char) (l : List (List Char)) (h : l ≠ []) :
    (consHead c l).length = l.length := by
  cases l with
  | nil => exact absurd rfl h
  | cons a t => simp [consHead]

theorem pySplit_ne_nil (sep : Char) (l : List Char) : pySplit sep l ≠ [] := by
  induction l with
  | nil => simp [pySplit]
  | cons c cs ih =>
    by_cases h : c = sep
    · simp [pySplit, h]
    · simp only [pySplit, if_neg h]
      exact consHead_ne_nil _ _

theorem pySplit_not_mem (sep : Char) (l : List Char) (h : sep ∉ l) :
    pySplit sep l = [l] := by
  induction l with
  | nil => rfl
  | cons c cs ih =>
    have hc : c ≠ sep := fun hc => h (hc ▸ List.mem_cons_self c cs)
    have hcs : sep ∉ cs := fun hm => h (List.mem_cons_of_mem c hm)
    simp [pySplit, if_neg hc, ih hcs, consHead]

theorem pySplit_append (sep : Char) (a b : List Char) (h : sep ∉ a) :
    pySplit sep (a ++ sep :: b) = a :: pySplit sep b := by
  induction a with
  | nil => simp [pySplit]
  | cons c cs ih =>
    have hc : c ≠ sep := fun hc => h (hc ▸ List.mem_cons_self c cs)
    have hcs : sep ∉ cs := fun hm => h (List.mem_cons_of_mem c hm)
    rw [List.cons_append]
    simp only [pySplit, if_neg hc, ih hcs, consHead]

theorem pySplit_length (sep : Char) (l : List Char) :
    (pySplit sep l).length = l.count sep + 1 := by
  induction l with
  | nil => simp [pySplit]
  | cons c cs ih =>
    by_cases h : c = sep
    · subst h
      simp [pySplit, List.count_cons, ih]
    · simp only [pySplit, if_neg h]
      rw [consHead_length _ _ (pySplit_ne_nil sep cs), ih,
        List.count_cons]
      simp [h]

theorem string_mk_data (s : String) : String.mk s.data = s := rfl

/-! ### Claims about PasswordManager -/

/-- Claim C1: for every plaintext `P`, verifying `P` against
`hash_password P` succeeds, and verifying any other plaintext `Q` fails.
The derivation `H` is quantified; the hypotheses state exactly what the
source guarantees for any salt the hash step may draw: salts from
`secrets.token_hex` and hex digests are colon-free, and the completeness
direction is relative to PBKDF2 not colliding on two passwords at the
drawn salt (the collision-resistance the code relies on). -/
theorem hash_password_verify_roundtrip
    (H : String → String → String) (salt P Q : String)
    (hsalt : ':' ∉ salt.data) (hout : ':' ∉ (H P salt).data)
    (hinj : ∀ p q : String, H p salt = H q salt → p = q) :
    verify_password H P (hash_password H salt P) = true ∧
    (Q ≠ P → verify_password H Q (hash_password H salt P) = false) := by
  have hdata : (hash_password H salt P).data
      = salt.data ++ ':' :: (H P salt).data := by
    simp [hash_password]
  have hsplit : pySplit ':' (hash_password H salt P).data
      = [salt.data, (H P salt).data] := by
    rw [hdata, pySplit_append _ _ _ hsalt, pySplit_not_mem _ _ hout]
  constructor
  · simp [verify_password, hsplit, string_mk_data]
  · intro hne
    simp only [verify_password, hsplit]
    rw [if_neg]
    intro heq
    rw [string_mk_data, string_mk_data] at heq
    exact hne (hinj Q P heq)

/-- Witness for C1 at a concrete injective derivation and concrete
plaintexts. -/
theorem hash_password_verify_roundtrip_witness :
    verify_password (fun p _ => p) "x"
      (hash_password (fun p _ => p) "s" "x") = true ∧
    verify_password (fun p _ => p) "y"
      (hash_password (fun p _ => p) "s" "x") = false := by
  have h := hash_password_verify_roundtrip (fun p _ => p) "s" "x" "y"
    (by decide) (by decide) (fun p q hpq => hpq)
  exact ⟨h.1, h.2 (by decide)⟩

/-- Claim C7: `verify_password` is a total function into `Bool`; on a
stored digest with no `:` delimiter or more than one, and on a digest
that is not a string at all, it returns `false` and never raises. -/
theorem verify_password_malformed_total (H : String → String → String)
    (password stored : String) :
    (stored.data.count ':' ≠ 1 → verify_password H password stored = false) ∧
    verify_password_any H password Option.none = false ∧
    (verify_password H password stored = true ∨
      verify_password H password stored = false) := by
  refine ⟨?_, rfl, ?_⟩
  · intro h
    have hlen : (pySplit ':' stored.data).length ≠ 2 := by
      rw [pySplit_length]; omega
    unfold verify_password
    cases hs : pySplit ':' stored.data with
    | nil => rfl
    | cons a t =>
      cases t with
      | nil => rfl
      | cons b t2 =>
        cases t2 with
        | nil =>
          rw [hs] at hlen
          simp at hlen
        | cons c t3 => rfl
  · cases hv : verify_password H password stored
    · exact Or.inr rfl
    · exact Or.inl rfl

/-- Witness for C7: a digest with no delimiter and one with two
delimiters are both rejected. -/
theorem verify_password_malformed_total_witness :
    verify_password (fun _ _ => "d") "p" "abc" = false ∧
    verify_password (fun _ _ => "d") "p" "a:b:c" = false :=
  ⟨(verify_password_malformed_total (fun _ _ => "d") "p" "abc").1 (by decide),
   (verify_password_malformed_total (fun _ _ => "d") "p" "a:b:c").1 (by decide)⟩

/-- Claim C4: `validate_password_strength` checks its six rules in a
fixed order, the first failing rule determines the returned pair, it
returns `(true, success message)` exactly when all six hold, it accepts
"Abcdef1!" and rejects the 4-character "Ab1!".  (It is total by
construction, matching "never raises".) -/
theorem validate_password_strength_spec (p : String) :
    ((validate_password_strength p).1 = true ↔
      (8 ≤ p.length ∧ p.length ≤ 128 ∧
        p.data.any Char.isUpper = true ∧ p.data.any Char.isLower = true ∧
        p.data.any Char.isDigit = true ∧
        p.data.any (fun c => specialChars.data.contains c) = true)) ∧
    (p.length < 8 →
      validate_password_strength p =
        (false, "La contraseña debe tener al menos 8 caracteres")) ∧
    (8 ≤ p.length → 128 < p.length →
      validate_password_strength p =
        (false, "La contraseña no puede exceder 128 caracteres")) ∧
    (8 ≤ p.length → p.length ≤ 128 → p.data.any Char.isUpper = false →
      validate_password_strength p =
        (false, "La contraseña debe contener al menos una letra mayúscula")) ∧
    (8 ≤ p.length → p.length ≤ 128 → p.data.any Char.isUpper = true →
      p.data.any Char.isLower = false →
      validate_password_strength p =
        (false, "La contraseña debe contener al menos una letra minúscula")) ∧
    (8 ≤ p.length → p.length ≤ 128 → p.data.any Char.isUpper = true →
      p.data.any Char.isLower = true → p.data.any Char.isDigit = false →
      validate_password_strength p =
        (false, "La contraseña debe contener al menos un número")) ∧
    (8 ≤ p.length → p.length ≤ 128 → p.data.any Char.isUpper = true →
      p.data.any Char.isLower = true → p.data.any Char.isDigit = true →
      p.data.any (fun c => specialChars.data.contains c) = false →
      validate_password_strength p =
        (false, "La contraseña debe contener al menos un carácter especial")) ∧
    ((8 ≤ p.length ∧ p.length ≤ 128 ∧ p.data.any Char.isUpper = true ∧
        p.data.any Char.isLower = true ∧ p.data.any Char.isDigit = true ∧
        p.data.any (fun c => specialChars.data.contains c) = true) →
      validate_password_strength p = (true, "Contraseña válida")) ∧
    validate_password_strength "Abcdef1!" = (true, "Contraseña válida") ∧
    validate_password_strength "Ab1!" =
      (false, "La contraseña debe tener al menos 8 caracteres") := by
  have hsucc : (8 ≤ p.length ∧ p.length ≤ 128 ∧
      p.data.any Char.isUpper = true ∧ p.data.any Char.isLower = true ∧
      p.data.any Char.isDigit = true ∧
      p.data.any (fun c => specialChars.data.contains c) = true) →
      validate_password_strength p = (true, "Contraseña válida") := by
    rintro ⟨h1, h2, h3, h4, h5, h6⟩
    unfold validate_password_strength
    rw [if_neg (by omega), if_neg (by omega), if_neg (by rw [h3]; decide),
      if_neg (by rw [h4]; decide), if_neg (by rw [h5]; decide), if_neg (by rw [h6]; decide)]
  refine ⟨⟨?_, fun h => by rw [hsucc h]⟩, ?_, ?_, ?_, ?_, ?_, ?_, hsucc,
    by decide, by decide⟩
  · intro h
    unfold validate_password_strength at h
    split_ifs at h with c1 c2 c3 c4 c5 c6
    exact ⟨by omega, by omega, by simpa using c3, by simpa using c4,
      by simpa using c5, by simpa using c6⟩
  · intro h1
    unfold validate_password_strength
    rw [if_pos h1]
  · intro h1 h2
    unfold validate_password_strength
    rw [if_neg (by omega), if_pos h2]
  · intro h1 h2 h3
    unfold validate_password_strength
    rw [if_neg (by omega), if_neg (by omega), if_pos h3]
  · intro h1 h2 h3 h4
    unfold validate_password_strength
    rw [if_neg (by omega), if_neg (by omega), if_neg (by rw [h3]; decide),
      if_pos h4]
  · intro h1 h2 h3 h4 h5
    unfold validate_password_strength
    rw [if_neg (by omega), if_neg (by omega), if_neg (by rw [h3]; decide),
      if_neg (by rw [h4]; decide), if_pos h5]
  · intro h1 h2 h3 h4 h5 h6
    unfold validate_password_strength
    rw [if_neg (by omega), if_neg (by omega), if_neg (by rw [h3]; decide),
      if_neg (by rw [h4]; decide), if_neg (by rw [h5]; decide), if_pos h6]

/-- Witness for C4: the first-failure rule applied to a concrete short
password. -/
theorem validate_password_strength_spec_witness :
    validate_password_strength "abc" =
      (false, "La contraseña debe tener al menos 8 caracteres") :=
  (validate_password_strength_spec "abc").2.1 (by decide)

/-- Claim C9 is refuted by the code: `generate_secure_password` draws
each character independently, so the all-lowercase string
"aaaaaaaaaaaa" is a possible output, and it fails
`validate_password_strength` (no uppercase letter); the crear-admin
route would then raise and answer 400 for its own generated password. -/
theorem generate_secure_password_weak_output :
    canGenerate 12 "aaaaaaaaaaaa" ∧
    (validate_password_strength "aaaaaaaaaaaa").1 = false ∧
    (validate_password_strength "aaaaaaaaaaaa").2 =
      "La contraseña debe contener al menos una letra mayúscula" :=
  ⟨⟨by decide, by decide⟩, by decide, by decide⟩

/-! ### Claims about TokenManager -/

/-- Claim C3 counterexample: issuing a token with
`expires_delta = timedelta(0)` does not stamp `exp` with the issuance
time; `timedelta(0)` is falsy, so the default 24-hour expiry applies and
immediate verification does not fail with an expiry error. -/
theorem create_access_token_zero_ttl_counterexample :
    (create_access_token [] 0 (some 0)).exp = 86400 ∧
    (create_access_token [] 0 (some 0)).exp ≠ 0 ∧
    token_expired (create_access_token [] 0 (some 0)) 0 = false :=
  ⟨by decide, by decide, by decide⟩

/-- Claim C3 amended: a token issued with `expires_delta` equal to the
zero timedelta is identical to one issued with the default (the zero
delta is falsy), carries expiry `now + 24h`, and verifying it
immediately does not fail with an expiry error. -/
theorem create_access_token_zero_ttl (data : List (String × String))
    (now : Int) :
    create_access_token data now (some 0) = create_access_token data now none ∧
    (create_access_token data now (some 0)).exp = now + 86400 ∧
    token_expired (create_access_token data now (some 0)) now = false := by
  refine ⟨rfl, rfl, ?_⟩
  have h : (create_access_token data now (some 0)).exp = now + 86400 := rfl
  unfold token_expired
  rw [h]
  exact decide_eq_false (by omega)

/-! ### Claims about UsuarioCRUD -/

/-- Claim C2: `autenticar_usuario` resolves first by username, then by
e-mail (both probes lower-cased and trimmed), and returns the single
failure value `none` in exactly three cases — no match, inactive
account, failed password verification — so the result never
distinguishes an unknown identifier from a wrong password. -/
theorem autenticar_usuario_spec (H : String → String → String)
    (db : List Usuario) (ident contrasena : String) :
    (autenticar_usuario H db ident contrasena = none ↔
      resolveIdent db ident = none ∨
      ∃ u, resolveIdent db ident = some u ∧
        (u.activo = false ∨
          verify_password H contrasena u.contrasena_hash = false)) ∧
    (∀ u, autenticar_usuario H db ident contrasena = some u →
      resolveIdent db ident = some u ∧ u.activo = true ∧
      verify_password H contrasena u.contrasena_hash = true) ∧
    (∀ u, resolveIdent db ident = some u →
      obtener_usuario_por_nombre_usuario db ident = some u ∨
      (obtener_usuario_por_nombre_usuario db ident = none ∧
        obtener_usuario_por_email db ident = some u)) ∧
    obtener_usuario_por_nombre_usuario db ident =
      db.find? (fun u => u.nombre_usuario == pyStrip (pyLower ident)) ∧
    obtener_usuario_por_email db ident =
      db.find? (fun u => u.email == pyStrip (pyLower ident)) := by
  refine ⟨?_, ?_, ?_, rfl, rfl⟩
  · cases hr : resolveIdent db ident with
    | none =>
      have heq : autenticar_usuario H db ident contrasena = none := by
        unfold autenticar_usuario
        rw [hr]
      simp [heq, hr]
    | some u =>
      have heq : autenticar_usuario H db ident contrasena =
          (if u.activo = false then none
           else if verify_password H contrasena u.contrasena_hash = true then
             some u
           else none) := by
        unfold autenticar_usuario
        rw [hr]
      rw [heq]
      by_cases ha : u.activo = false
      · rw [if_pos ha]
        exact ⟨fun _ => Or.inr ⟨u, rfl, Or.inl ha⟩, fun _ => rfl⟩
      · rw [if_neg ha]
        by_cases hv : verify_password H contrasena u.contrasena_hash = true
        · rw [if_pos hv]
          constructor
          · intro h
            simp at h
          · rintro (h | ⟨u2, hu2, h2⟩)
            · simp at h
            · injection hu2 with hu2
              subst hu2
              rcases h2 with h2 | h2
              · exact absurd h2 ha
              · rw [hv] at h2
                simp at h2
        · rw [if_neg hv]
          have hv' : verify_password H contrasena u.contrasena_hash = false := by
            revert hv
            cases verify_password H contrasena u.contrasena_hash <;> simp
          exact ⟨fun _ => Or.inr ⟨u, rfl, Or.inr hv'⟩, fun _ => rfl⟩
  · intro u h
    cases hr : resolveIdent db ident with
    | none =>
      unfold autenticar_usuario at h
      rw [hr] at h
      have h2 : (none : Option Usuario) = some u := h
      simp at h2
    | some w =>
      unfold autenticar_usuario at h
      rw [hr] at h
      have h2 : (if w.activo = false then none
          else if verify_password H contrasena w.contrasena_hash = true then
            some w
          else none) = some u := h
      by_cases ha : w.activo = false
      · rw [if_pos ha] at h2
        simp at h2
      · rw [if_neg ha] at h2
        by_cases hv : verify_password H contrasena w.contrasena_hash = true
        · rw [if_pos hv] at h2
          injection h2 with h2
          subst h2
          exact ⟨rfl, by revert ha; cases w.activo <;> simp, hv⟩
        · rw [if_neg hv] at h2
          simp at h2
  · intro u h
    cases hn : obtener_usuario_por_nombre_usuario db ident with
    | some w =>
      unfold resolveIdent at h
      rw [hn] at h
      have h2 : some w = some u := h
      injection h2 with h2
      subst h2
      exact Or.inl rfl
    | none =>
      unfold resolveIdent at h
      rw [hn] at h
      have h2 : obtener_usuario_por_email db ident = some u := h
      exact Or.inr ⟨rfl, h2⟩

/-- Witness for C2 at the empty store: authentication fails
uniformly. -/
theorem autenticar_usuario_spec_witness :
    autenticar_usuario (fun _ _ => "d") [] "alice" "pw" = none :=
  ((autenticar_usuario_spec (fun _ _ => "d") [] "alice" "pw").1).mpr
    (Or.inl rfl)

/-- Claim C5: the ordered validations of `crear_usuario`, each failure
returning its error before the write, success appending exactly the
normalized row, and every error being one of the nine validation
failures (so the store is unchanged on any raised validation error). -/
theorem crear_usuario_spec (hashFn : String → String) (freshId now : Int)
    (db : List Usuario) (nombre nombre_usuario email contrasena : String)
    (telefono edad : Option String) (saldo_inicial : Option Int)
    (es_admin : Bool) :
    ((nombre = "" ∨ (pyStrip nombre).length = 0) →
      crear_usuario hashFn freshId now db nombre nombre_usuario email
        contrasena telefono edad saldo_inicial es_admin =
        Except.error "El nombre es obligatorio") ∧
    (¬(nombre = "" ∨ (pyStrip nombre).length = 0) → 100 < nombre.length →
      crear_usuario hashFn freshId now db nombre nombre_usuario email
        contrasena telefono edad saldo_inicial es_admin =
        Except.error "El nombre no puede exceder 100 caracteres") ∧
    (¬(nombre = "" ∨ (pyStrip nombre).length = 0) → ¬(100 < nombre.length) →
      (nombre_usuario = "" ∨ validar_nombre_usuario nombre_usuario = false) →
      crear_usuario hashFn freshId now db nombre nombre_usuario email
        contrasena telefono edad saldo_inicial es_admin =
        Except.error
          "El nombre de usuario debe tener entre 3-20 caracteres y solo contener letras, números y guiones bajos") ∧
    (¬(nombre = "" ∨ (pyStrip nombre).length = 0) → ¬(100 < nombre.length) →
      ¬(nombre_usuario = "" ∨ validar_nombre_usuario nombre_usuario = false) →
      (obtener_usuario_por_nombre_usuario db nombre_usuario).isSome = true →
      crear_usuario hashFn freshId now db nombre nombre_usuario email
        contrasena telefono edad saldo_inicial es_admin =
        Except.error "El nombre de usuario ya está registrado") ∧
    (¬(nombre = "" ∨ (pyStrip nombre).length = 0) → ¬(100 < nombre.length) →
      ¬(nombre_usuario = "" ∨ validar_nombre_usuario nombre_usuario = false) →
      ¬((obtener_usuario_por_nombre_usuario db nombre_usuario).isSome = true) →
      (email = "" ∨ validar_email email = false) →
      crear_usuario hashFn freshId now db nombre nombre_usuario email
        contrasena telefono edad saldo_inicial es_admin =
        Except.error "Email inválido") ∧
    (¬(nombre = "" ∨ (pyStrip nombre).length = 0) → ¬(100 < nombre.length) →
      ¬(nombre_usuario = "" ∨ validar_nombre_usuario nombre_usuario = false) →
      ¬((obtener_usuario_por_nombre_usuario db nombre_usuario).isSome = true) →
      ¬(email = "" ∨ validar_email email = false) →
      (obtener_usuario_por_email db email).isSome = true →
      crear_usuario hashFn freshId now db nombre nombre_usuario email
        contrasena telefono edad saldo_inicial es_admin =
        Except.error "El email ya está registrado") ∧
    (¬(nombre = "" ∨ (pyStrip nombre).length = 0) → ¬(100 < nombre.length) →
      ¬(nombre_usuario = "" ∨ validar_nombre_usuario nombre_usuario = false) →
      ¬((obtener_usuario_por_nombre_usuario db nombre_usuario).isSome = true) →
      ¬(email = "" ∨ validar_email email = false) →
      ¬((obtener_usuario_por_email db email).isSome = true) →
      contrasena = "" →
      crear_usuario hashFn freshId now db nombre nombre_usuario email
        contrasena telefono edad saldo_inicial es_admin =
        Except.error "La contraseña es obligatoria") ∧
    (¬(nombre = "" ∨ (pyStrip nombre).length = 0) → ¬(100 < nombre.length) →
      ¬(nombre_usuario = "" ∨ validar_nombre_usuario nombre_usuario = false) →
      ¬((obtener_usuario_por_nombre_usuario db nombre_usuario).isSome = true) →
      ¬(email = "" ∨ validar_email email = false) →
      ¬((obtener_usuario_por_email db email).isSome = true) →
      ¬(contrasena = "") →
      (validate_password_strength contrasena).1 = false →
      crear_usuario hashFn freshId now db nombre nombre_usuario email
        contrasena telefono edad saldo_inicial es_admin =
        Except.error
          ("Contraseña inválida: " ++ (validate_password_strength contrasena).2)) ∧
    (¬(nombre = "" ∨ (pyStrip nombre).length = 0) → ¬(100 < nombre.length) →
      ¬(nombre_usuario = "" ∨ validar_nombre_usuario nombre_usuario = false) →
      ¬((obtener_usuario_por_nombre_usuario db nombre_usuario).isSome = true) →
      ¬(email = "" ∨ validar_email email = false) →
      ¬((obtener_usuario_por_email db email).isSome = true) →
      ¬(contrasena = "") →
      ¬((validate_password_strength contrasena).1 = false) →
      telefonoBad telefono = true →
      crear_usuario hashFn freshId now db nombre nombre_usuario email
        contrasena telefono edad saldo_inicial es_admin =
        Except.error "Formato de teléfono inválido") ∧
    (¬(nombre = "" ∨ (pyStrip nombre).length = 0) → ¬(100 < nombre.length) →
      ¬(nombre_usuario = "" ∨ validar_nombre_usuario nombre_usuario = false) →
      ¬((obtener_usuario_por_nombre_usuario db nombre_usuario).isSome = true) →
      ¬(email = "" ∨ validar_email email = false) →
      ¬((obtener_usuario_por_email db email).isSome = true) →
      ¬(contrasena = "") →
      ¬((validate_password_strength contrasena).1 = false) →
      ¬(telefonoBad telefono = true) →
      crear_usuario hashFn freshId now db nombre nombre_usuario email
        contrasena telefono edad saldo_inicial es_admin =
        Except.ok
          ({ id := freshId, nombre := pyStrip nombre,
             nombre_usuario := pyLower (pyStrip nombre_usuario),
             email := pyLower (pyStrip email), telefono := telefono,
             contrasena_hash := hashFn contrasena, edad := edad,
             saldo_inicial := saldo_inicial, activo := true,
             es_admin := es_admin, fecha_registro := now,
             fecha_actualizacion := now },
           db ++ [{ id := freshId, nombre := pyStrip nombre,
                    nombre_usuario := pyLower (pyStrip nombre_usuario),
                    email := pyLower (pyStrip email), telefono := telefono,
                    contrasena_hash := hashFn contrasena, edad := edad,
                    saldo_inicial := saldo_inicial, activo := true,
                    es_admin := es_admin, fecha_registro := now,
                    fecha_actualizacion := now }])) ∧
    (∀ e, crear_usuario hashFn freshId now db nombre nombre_usuario email
        contrasena telefono edad saldo_inicial es_admin = Except.error e →
      (nombre = "" ∨ (pyStrip nombre).length = 0) ∨ 100 < nombre.length ∨
      (nombre_usuario = "" ∨ validar_nombre_usuario nombre_usuario = false) ∨
      (obtener_usuario_por_nombre_usuario db nombre_usuario).isSome = true ∨
      (email = "" ∨ validar_email email = false) ∨
      (obtener_usuario_por_email db email).isSome = true ∨
      contrasena = "" ∨
      (validate_password_strength contrasena).1 = false ∨
      telefonoBad telefono = true) := by
  refine ⟨?_, ?_, ?_, ?_, ?_, ?_, ?_, ?_, ?_, ?_, ?_⟩
  · intro h1
    unfold crear_usuario
    rw [if_pos h1]
  · intro h1 h2
    unfold crear_usuario
    rw [if_neg h1, if_pos h2]
  · intro h1 h2 h3
    unfold crear_usuario
    rw [if_neg h1, if_neg h2, if_pos h3]
  · intro h1 h2 h3 h4
    unfold crear_usuario
    rw [if_neg h1, if_neg h2, if_neg h3, if_pos h4]
  · intro h1 h2 h3 h4 h5
    unfold crear_usuario
    rw [if_neg h1, if_neg h2, if_neg h3, if_neg h4, if_pos h5]
  · intro h1 h2 h3 h4 h5 h6
    unfold crear_usuario
    rw [if_neg h1, if_neg h2, if_neg h3, if_neg h4, if_neg h5, if_pos h6]
  · intro h1 h2 h3 h4 h5 h6 h7
    unfold crear_usuario
    rw [if_neg h1, if_neg h2, if_neg h3, if_neg h4, if_neg h5, if_neg h6,
      if_pos h7]
  · intro h1 h2 h3 h4 h5 h6 h7 h8
    unfold crear_usuario
    rw [if_neg h1, if_neg h2, if_neg h3, if_neg h4, if_neg h5, if_neg h6,
      if_neg h7, if_pos h8]
  · intro h1 h2 h3 h4 h5 h6 h7 h8 h9
    unfold crear_usuario
    rw [if_neg h1, if_neg h2, if_neg h3, if_neg h4, if_neg h5, if_neg h6,
      if_neg h7, if_neg h8, if_pos h9]
  · intro h1 h2 h3 h4 h5 h6 h7 h8 h9
    unfold crear_usuario
    rw [if_neg h1, if_neg h2, if_neg h3, if_neg h4, if_neg h5, if_neg h6,
      if_neg h7, if_neg h8, if_neg h9]
  · intro e he
    by_contra hno
    simp only [not_or] at hno
    obtain ⟨h1, h2, h3, h4, h5, h6, h7, h8, h9⟩ := hno
    unfold crear_usuario at he
    rw [if_neg (by exact not_or.mpr h1), if_neg h2,
      if_neg (by exact not_or.mpr h3), if_neg h4,
      if_neg (by exact not_or.mpr h5), if_neg h6, if_neg h7, if_neg h8,
      if_neg h9] at he
    simp at he

/-- Witness for C5: the first validation fires on an empty name. -/
theorem crear_usuario_spec_witness :
    crear_usuario (fun p => p) 1 0 [] "" "alice" "a@x.com" "Abcdef1!" none
      none none false = Except.error "El nombre es obligatorio" :=
  (crear_usuario_spec (fun p => p) 1 0 [] "" "alice" "a@x.com" "Abcdef1!"
    none none none false).1 (Or.inl rfl)

/-- Claim C6: `crear_usuario` stores username and e-mail lower-cased and
trimmed, and the uniqueness lookup normalizes its probe the same way, so
creating "A@x.com" and then "a@x.com" makes the second creation fail
with the e-mail uniqueness error. -/
theorem crear_usuario_email_normalized_unique :
    (∀ (hashFn : String → String) (freshId now : Int) (db : List Usuario)
      (nombre nombre_usuario email contrasena : String)
      (telefono edad : Option String) (saldo_inicial : Option Int)
      (es_admin : Bool) (u : Usuario) (db2 : List Usuario),
      crear_usuario hashFn freshId now db nombre nombre_usuario email
        contrasena telefono edad saldo_inicial es_admin =
        Except.ok (u, db2) →
      u.email = pyLower (pyStrip email) ∧
      u.nombre_usuario = pyLower (pyStrip nombre_usuario) ∧
      db2 = db ++ [u]) ∧
    crear_usuario (fun p => "73:" ++ p) 1 0 [] "Alice" "alice" "A@x.com"
      "Abcdef1!" none (some "30") (some 0) false =
      Except.ok (sampleAlice, [sampleAlice]) ∧
    sampleAlice.email = "a@x.com" ∧
    crear_usuario (fun p => "73:" ++ p) 2 0 [sampleAlice] "Bob" "bob"
      "a@x.com" "Abcdef1!" none (some "30") (some 0) false =
      Except.error "El email ya está registrado" := by
  refine ⟨?_, by rfl, rfl, by rfl⟩
  intro hashFn freshId now db nombre nombre_usuario email contrasena
    telefono edad saldo_inicial es_admin u db2 h
  unfold crear_usuario at h
  split_ifs at h
  simp only [Except.ok.injEq, Prod.mk.injEq] at h
  obtain ⟨hu, hdb⟩ := h
  subst hu
  subst hdb
  exact ⟨rfl, rfl, rfl⟩

/-- Witness for C6: the stored e-mail of the concrete creation is the
normalized probe. -/
theorem crear_usuario_email_normalized_unique_witness :
    sampleAlice.email = pyLower (pyStrip "A@x.com") :=
  (crear_usuario_email_normalized_unique.1 (fun p => "73:" ++ p) 1 0 []
    "Alice" "alice" "A@x.com" "Abcdef1!" none (some "30") (some 0) false
    sampleAlice [sampleAlice] (by rfl)).1

/-- Claim C8: `desactivar_usuario` is literally `actualizar_usuario`
with the single-entry patch `activo=False`; it returns the not-found
outcome exactly when the id does not resolve, and otherwise flips
`activo` to false and stamps the update timestamp, leaving every other
field and every other row unchanged. -/
theorem desactivar_usuario_spec (hashFn : String → String) (now : Int)
    (db : List Usuario) (usuario_id : Int) :
    desactivar_usuario hashFn now db usuario_id =
      actualizar_usuario hashFn now db usuario_id
        [("activo", PyVal.vbool false)] ∧
    (obtener_usuario db usuario_id = none →
      desactivar_usuario hashFn now db usuario_id = Except.ok none) ∧
    (∀ u, obtener_usuario db usuario_id = some u →
      desactivar_usuario hashFn now db usuario_id =
        Except.ok (some
          ({ u with activo := false, fecha_actualizacion := now },
            db.map (fun x =>
              if x.id = usuario_id then
                { u with activo := false, fecha_actualizacion := now }
              else x)))) := by
  refine ⟨rfl, ?_, ?_⟩
  · intro h
    unfold desactivar_usuario actualizar_usuario
    rw [h]
  · intro u h
    unfold desactivar_usuario actualizar_usuario
    rw [h]
    rfl

/-- Witness for C8 on a one-row store. -/
theorem desactivar_usuario_spec_witness :
    desactivar_usuario (fun p => p) 5 [sampleAlice] 1 =
      Except.ok (some
        ({ sampleAlice with activo := false, fecha_actualizacion := 5 },
          [{ sampleAlice with activo := false, fecha_actualizacion := 5 }])) :=
  ((desactivar_usuario_spec (fun p => p) 5 [sampleAlice] 1).2.2 sampleAlice
    (by rfl)).trans (by rfl)

/-! ### Dict lemmas for the unknown-key analysis of `actualizar_usuario` -/

theorem except_bind_ok {ε α β : Type} (x : α) (f : α → Except ε β) :
    (Except.ok x >>= f) = f x := rfl

theorem except_bind_error {ε α β : Type} (e : ε) (f : α → Except ε β) :
    ((Except.error e : Except ε α) >>= f) = Except.error e := rfl

theorem lookupKey_setKey_ne (k2 k3 : String) (w : PyVal) (p : Patch)
    (hk : k2 ≠ k3) : lookupKey k2 (setKey k3 w p) = lookupKey k2 p := by
  induction p with
  | nil =>
    simp only [setKey, lookupKey]
    rw [if_neg (fun h => hk h.symm)]
  | cons kv rest ih =>
    obtain ⟨k4, w4⟩ := kv
    simp only [setKey]
    by_cases h4 : k4 = k3
    · rw [if_pos h4]
      simp only [lookupKey]
      have h42 : ¬(k4 = k2) := by
        rw [h4]
        exact fun h => hk h.symm
      rw [if_neg h42, if_neg h42]
    · rw [if_neg h4]
      simp only [lookupKey]
      by_cases h5 : k4 = k2
      · rw [if_pos h5, if_pos h5]
      · rw [if_neg h5, if_neg h5]
        exact ih

theorem lookupKey_delKey_ne (k2 k3 : String) (p : Patch)
    (hk : k2 ≠ k3) : lookupKey k2 (delKey k3 p) = lookupKey k2 p := by
  induction p with
  | nil => rfl
  | cons kv rest ih =>
    obtain ⟨k4, w4⟩ := kv
    simp only [delKey]
    by_cases h4 : k4 = k3
    · rw [if_pos h4]
      simp only [lookupKey]
      have h42 : ¬(k4 = k2) := by
        rw [h4]
        exact fun h => hk h.symm
      rw [if_neg h42]
    · rw [if_neg h4]
      simp only [lookupKey]
      by_cases h5 : k4 = k2
      · rw [if_pos h5, if_pos h5]
      · rw [if_neg h5, if_neg h5]
        exact ih

theorem lookupKey_insAt (k2 k : String) (v : PyVal) (hk : k2 ≠ k)
    (a b : Patch) :
    lookupKey k2 (a ++ (k, v) :: b) = lookupKey k2 (a ++ b) := by
  induction a with
  | nil =>
    simp only [List.nil_append, lookupKey]
    rw [if_neg (fun h => hk h.symm)]
  | cons kv rest ih =>
    obtain ⟨k4, w4⟩ := kv
    simp only [List.cons_append, lookupKey]
    by_cases h5 : k4 = k2
    · rw [if_pos h5, if_pos h5]
    · rw [if_neg h5, if_neg h5]
      exact ih

theorem setKey_insAt (k2 : String) (w : PyVal) (k : String) (v : PyVal)
    (hk : k2 ≠ k) (a b : Patch) :
    ∃ a2 b2 : Patch, setKey k2 w (a ++ (k, v) :: b) = a2 ++ (k, v) :: b2 ∧
      setKey k2 w (a ++ b) = a2 ++ b2 := by
  induction a with
  | nil =>
    refine ⟨[], setKey k2 w b, ?_, rfl⟩
    simp only [List.nil_append, setKey]
    rw [if_neg (fun h => hk h.symm)]
  | cons kv rest ih =>
    obtain ⟨k4, w4⟩ := kv
    by_cases h4 : k4 = k2
    · refine ⟨(k4, w) :: rest, b, ?_, ?_⟩
      · simp only [List.cons_append, List.append_eq, setKey]
        rw [if_pos h4]
      · simp only [List.cons_append, List.append_eq, setKey]
        rw [if_pos h4]
    · obtain ⟨a2, b2, h1, h2⟩ := ih
      refine ⟨(k4, w4) :: a2, b2, ?_, ?_⟩
      · simp only [List.cons_append, List.append_eq, setKey]
        rw [if_neg h4, h1]
      · simp only [List.cons_append, List.append_eq, setKey]
        rw [if_neg h4, h2]

theorem delKey_insAt (k2 k : String) (v : PyVal) (hk : k2 ≠ k)
    (a b : Patch) :
    ∃ a2 b2 : Patch, delKey k2 (a ++ (k, v) :: b) = a2 ++ (k, v) :: b2 ∧
      delKey k2 (a ++ b) = a2 ++ b2 := by
  induction a with
  | nil =>
    refine ⟨[], delKey k2 b, ?_, rfl⟩
    simp only [List.nil_append, delKey]
    rw [if_neg (fun h => hk h.symm)]
  | cons kv rest ih =>
    obtain ⟨k4, w4⟩ := kv
    by_cases h4 : k4 = k2
    · refine ⟨rest, b, ?_, ?_⟩
      · simp only [List.cons_append, List.append_eq, delKey]
        rw [if_pos h4]
      · simp only [List.cons_append, List.append_eq, delKey]
        rw [if_pos h4]
    · obtain ⟨a2, b2, h1, h2⟩ := ih
      refine ⟨(k4, w4) :: a2, b2, ?_, ?_⟩
      · simp only [List.cons_append, List.append_eq, delKey]
        rw [if_neg h4, h1]
      · simp only [List.cons_append, List.append_eq, delKey]
        rw [if_neg h4, h2]

theorem applyPatch_insAt (k : String) (v : PyVal)
    (hattr : usuarioAttrs.contains k = false) (a b : Patch) (u : Usuario) :
    applyPatch u (a ++ (k, v) :: b) = applyPatch u (a ++ b) := by
  induction a generalizing u with
  | nil =>
    simp only [List.nil_append, applyPatch]
    rw [if_neg (by rw [hattr]; decide)]
  | cons kv rest ih =>
    obtain ⟨k4, w4⟩ := kv
    simp only [List.cons_append, applyPatch]
    exact ih _

/-! ### The validation blocks ignore an inserted non-special key -/

theorem pasoEmail_insAt (db : List Usuario) (usuario_id : Int)
    (k : String) (v : PyVal) (hk : k ≠ "email") (a b : Patch) :
    (∃ a2 b2, pasoEmail db usuario_id (a ++ (k, v) :: b) =
        Except.ok (a2 ++ (k, v) :: b2) ∧
      pasoEmail db usuario_id (a ++ b) = Except.ok (a2 ++ b2)) ∨
    (∃ e, pasoEmail db usuario_id (a ++ (k, v) :: b) = Except.error e ∧
      pasoEmail db usuario_id (a ++ b) = Except.error e) := by
  have hl := lookupKey_insAt "email" k v (Ne.symm hk) a b
  cases hv : lookupKey "email" (a ++ b) with
  | none =>
    left
    refine ⟨a, b, ?_, ?_⟩
    · unfold pasoEmail
      rw [hl, hv]
    · unfold pasoEmail
      rw [hv]
  | some val =>
    cases val with
    | vstr email =>
      by_cases hval : validar_email email = false
      · right
        refine ⟨"Email inválido", ?_, ?_⟩
        · unfold pasoEmail
          rw [hl, hv]
          simp only [if_pos hval]
        · unfold pasoEmail
          rw [hv]
          simp only [if_pos hval]
      · cases hot : obtener_usuario_por_email db email with
        | some otro =>
          by_cases hid : otro.id ≠ usuario_id
          · right
            refine ⟨"El email ya está registrado", ?_, ?_⟩
            · unfold pasoEmail
              rw [hl, hv]
              simp only [if_neg hval, hot, if_pos hid]
            · unfold pasoEmail
              rw [hv]
              simp only [if_neg hval, hot, if_pos hid]
          · left
            obtain ⟨a2, b2, h1, h2⟩ :=
              setKey_insAt "email" (.vstr (pyStrip (pyLower email))) k v
                (Ne.symm hk) a b
            refine ⟨a2, b2, ?_, ?_⟩
            · unfold pasoEmail
              rw [hl, hv]
              simp only [if_neg hval, hot, if_neg hid, h1]
            · unfold pasoEmail
              rw [hv]
              simp only [if_neg hval, hot, if_neg hid, h2]
        | none =>
          left
          obtain ⟨a2, b2, h1, h2⟩ :=
            setKey_insAt "email" (.vstr (pyStrip (pyLower email))) k v
              (Ne.symm hk) a b
          refine ⟨a2, b2, ?_, ?_⟩
          · unfold pasoEmail
            rw [hl, hv]
            simp only [if_neg hval, hot, h1]
          · unfold pasoEmail
            rw [hv]
            simp only [if_neg hval, hot, h2]
    | vbool bb =>
      right
      refine ⟨"TypeError: email", ?_, ?_⟩
      · unfold pasoEmail
        rw [hl, hv]
      · unfold pasoEmail
        rw [hv]
    | vint n =>
      right
      refine ⟨"TypeError: email", ?_, ?_⟩
      · unfold pasoEmail
        rw [hl, hv]
      · unfold pasoEmail
        rw [hv]
    | vnone =>
      right
      refine ⟨"TypeError: email", ?_, ?_⟩
      · unfold pasoEmail
        rw [hl, hv]
      · unfold pasoEmail
        rw [hv]

theorem pasoTelefono_insAt (k : String) (v : PyVal) (hk : k ≠ "telefono")
    (a b : Patch) :
    (∃ a2 b2, pasoTelefono (a ++ (k, v) :: b) =
        Except.ok (a2 ++ (k, v) :: b2) ∧
      pasoTelefono (a ++ b) = Except.ok (a2 ++ b2)) ∨
    (∃ e, pasoTelefono (a ++ (k, v) :: b) = Except.error e ∧
      pasoTelefono (a ++ b) = Except.error e) := by
  have hl := lookupKey_insAt "telefono" k v (Ne.symm hk) a b
  cases hv : lookupKey "telefono" (a ++ b) with
  | none =>
    left
    refine ⟨a, b, ?_, ?_⟩
    · unfold pasoTelefono
      rw [hl, hv]
    · unfold pasoTelefono
      rw [hv]
  | some val =>
    by_cases ht : val.truthy = false
    · left
      refine ⟨a, b, ?_, ?_⟩
      · unfold pasoTelefono
        rw [hl, hv]
        simp only [if_pos ht]
      · unfold pasoTelefono
        rw [hv]
        simp only [if_pos ht]
    · cases val with
      | vstr t =>
        by_cases hvt : validar_telefono t = false
        · right
          refine ⟨"Formato de teléfono inválido", ?_, ?_⟩
          · unfold pasoTelefono
            rw [hl, hv]
            simp only [if_neg ht, if_pos hvt]
          · unfold pasoTelefono
            rw [hv]
            simp only [if_neg ht, if_pos hvt]
        · left
          obtain ⟨a2, b2, h1, h2⟩ :=
            setKey_insAt "telefono" (.vstr (pyStrip t)) k v (Ne.symm hk) a b
          refine ⟨a2, b2, ?_, ?_⟩
          · unfold pasoTelefono
            rw [hl, hv]
            simp only [if_neg ht, if_neg hvt, h1]
          · unfold pasoTelefono
            rw [hv]
            simp only [if_neg ht, if_neg hvt, h2]
      | vbool bb =>
        right
        refine ⟨"TypeError: telefono", ?_, ?_⟩
        · unfold pasoTelefono
          rw [hl, hv]
          simp only [if_neg ht]
        · unfold pasoTelefono
          rw [hv]
          simp only [if_neg ht]
      | vint n =>
        right
        refine ⟨"TypeError: telefono", ?_, ?_⟩
        · unfold pasoTelefono
          rw [hl, hv]
          simp only [if_neg ht]
        · unfold pasoTelefono
          rw [hv]
          simp only [if_neg ht]
      | vnone =>
        right
        refine ⟨"TypeError: telefono", ?_, ?_⟩
        · unfold pasoTelefono
          rw [hl, hv]
          simp only [if_neg ht]
        · unfold pasoTelefono
          rw [hv]
          simp only [if_neg ht]

theorem pasoNombre_insAt (k : String) (v : PyVal) (hk : k ≠ "nombre")
    (a b : Patch) :
    (∃ a2 b2, pasoNombre (a ++ (k, v) :: b) =
        Except.ok (a2 ++ (k, v) :: b2) ∧
      pasoNombre (a ++ b) = Except.ok (a2 ++ b2)) ∨
    (∃ e, pasoNombre (a ++ (k, v) :: b) = Except.error e ∧
      pasoNombre (a ++ b) = Except.error e) := by
  have hl := lookupKey_insAt "nombre" k v (Ne.symm hk) a b
  cases hv : lookupKey "nombre" (a ++ b) with
  | none =>
    left
    refine ⟨a, b, ?_, ?_⟩
    · unfold pasoNombre
      rw [hl, hv]
    · unfold pasoNombre
      rw [hv]
  | some val =>
    cases val with
    | vstr nombre =>
      by_cases h1 : nombre = "" ∨ (pyStrip nombre).length = 0
      · right
        refine ⟨"El nombre es obligatorio", ?_, ?_⟩
        · unfold pasoNombre
          rw [hl, hv]
          simp only [if_pos h1]
        · unfold pasoNombre
          rw [hv]
          simp only [if_pos h1]
      · by_cases h2 : 100 < nombre.length
        · right
          refine ⟨"El nombre no puede exceder 100 caracteres", ?_, ?_⟩
          · unfold pasoNombre
            rw [hl, hv]
            simp only [if_neg h1, if_pos h2]
          · unfold pasoNombre
            rw [hv]
            simp only [if_neg h1, if_pos h2]
        · left
          obtain ⟨a2, b2, hs1, hs2⟩ :=
            setKey_insAt "nombre" (.vstr (pyStrip nombre)) k v
              (Ne.symm hk) a b
          refine ⟨a2, b2, ?_, ?_⟩
          · unfold pasoNombre
            rw [hl, hv]
            simp only [if_neg h1, if_neg h2, hs1]
          · unfold pasoNombre
            rw [hv]
            simp only [if_neg h1, if_neg h2, hs2]
    | vbool bb =>
      right
      refine ⟨"TypeError: nombre", ?_, ?_⟩
      · unfold pasoNombre
        rw [hl, hv]
      · unfold pasoNombre
        rw [hv]
    | vint n =>
      right
      refine ⟨"TypeError: nombre", ?_, ?_⟩
      · unfold pasoNombre
        rw [hl, hv]
      · unfold pasoNombre
        rw [hv]
    | vnone =>
      right
      refine ⟨"TypeError: nombre", ?_, ?_⟩
      · unfold pasoNombre
        rw [hl, hv]
      · unfold pasoNombre
        rw [hv]

theorem pasoNombreUsuario_insAt (db : List Usuario) (usuario_id : Int)
    (k : String) (v : PyVal) (hk : k ≠ "nombre_usuario") (a b : Patch) :
    (∃ a2 b2, pasoNombreUsuario db usuario_id (a ++ (k, v) :: b) =
        Except.ok (a2 ++ (k, v) :: b2) ∧
      pasoNombreUsuario db usuario_id (a ++ b) = Except.ok (a2 ++ b2)) ∨
    (∃ e, pasoNombreUsuario db usuario_id (a ++ (k, v) :: b) =
        Except.error e ∧
      pasoNombreUsuario db usuario_id (a ++ b) = Except.error e) := by
  have hl := lookupKey_insAt "nombre_usuario" k v (Ne.symm hk) a b
  cases hv : lookupKey "nombre_usuario" (a ++ b) with
  | none =>
    left
    refine ⟨a, b, ?_, ?_⟩
    · unfold pasoNombreUsuario
      rw [hl, hv]
    · unfold pasoNombreUsuario
      rw [hv]
  | some val =>
    cases val with
    | vstr nu =>
      by_cases hval : nu = "" ∨ validar_nombre_usuario nu = false
      · right
        refine ⟨"El nombre de usuario debe tener entre 3-20 caracteres y solo contener letras, números y guiones bajos",
          ?_, ?_⟩
        · unfold pasoNombreUsuario
          rw [hl, hv]
          simp only [if_pos hval]
        · unfold pasoNombreUsuario
          rw [hv]
          simp only [if_pos hval]
      · cases hot : obtener_usuario_por_nombre_usuario db nu with
        | some otro =>
          by_cases hid : otro.id ≠ usuario_id
          · right
            refine ⟨"El nombre de usuario ya está registrado", ?_, ?_⟩
            · unfold pasoNombreUsuario
              rw [hl, hv]
              simp only [if_neg hval, hot, if_pos hid]
            · unfold pasoNombreUsuario
              rw [hv]
              simp only [if_neg hval, hot, if_pos hid]
          · left
            obtain ⟨a2, b2, h1, h2⟩ :=
              setKey_insAt "nombre_usuario" (.vstr (pyLower (pyStrip nu)))
                k v (Ne.symm hk) a b
            refine ⟨a2, b2, ?_, ?_⟩
            · unfold pasoNombreUsuario
              rw [hl, hv]
              simp only [if_neg hval, hot, if_neg hid, h1]
            · unfold pasoNombreUsuario
              rw [hv]
              simp only [if_neg hval, hot, if_neg hid, h2]
        | none =>
          left
          obtain ⟨a2, b2, h1, h2⟩ :=
            setKey_insAt "nombre_usuario" (.vstr (pyLower (pyStrip nu)))
              k v (Ne.symm hk) a b
          refine ⟨a2, b2, ?_, ?_⟩
          · unfold pasoNombreUsuario
            rw [hl, hv]
            simp only [if_neg hval, hot, h1]
          · unfold pasoNombreUsuario
            rw [hv]
            simp only [if_neg hval, hot, h2]
    | vbool bb =>
      right
      refine ⟨"TypeError: nombre_usuario", ?_, ?_⟩
      · unfold pasoNombreUsuario
        rw [hl, hv]
      · unfold pasoNombreUsuario
        rw [hv]
    | vint n =>
      right
      refine ⟨"TypeError: nombre_usuario", ?_, ?_⟩
      · unfold pasoNombreUsuario
        rw [hl, hv]
      · unfold pasoNombreUsuario
        rw [hv]
    | vnone =>
      right
      refine ⟨"TypeError: nombre_usuario", ?_, ?_⟩
      · unfold pasoNombreUsuario
        rw [hl, hv]
      · unfold pasoNombreUsuario
        rw [hv]

theorem pasoContrasena_insAt (hashFn : String → String) (k : String)
    (v : PyVal) (hk : k ≠ "contrasena") (hk2 : k ≠ "contrasena_hash")
    (a b : Patch) :
    (∃ a2 b2, pasoContrasena hashFn (a ++ (k, v) :: b) =
        Except.ok (a2 ++ (k, v) :: b2) ∧
      pasoContrasena hashFn (a ++ b) = Except.ok (a2 ++ b2)) ∨
    (∃ e, pasoContrasena hashFn (a ++ (k, v) :: b) = Except.error e ∧
      pasoContrasena hashFn (a ++ b) = Except.error e) := by
  have hl := lookupKey_insAt "contrasena" k v (Ne.symm hk) a b
  cases hv : lookupKey "contrasena" (a ++ b) with
  | none =>
    left
    refine ⟨a, b, ?_, ?_⟩
    · unfold pasoContrasena
      rw [hl, hv]
    · unfold pasoContrasena
      rw [hv]
  | some val =>
    cases val with
    | vstr contrasena =>
      by_cases hval : (validate_password_strength contrasena).1 = false
      · right
        refine ⟨"Contraseña inválida: " ++
          (validate_password_strength contrasena).2, ?_, ?_⟩
        · unfold pasoContrasena
          rw [hl, hv]
          simp only [if_pos hval]
        · unfold pasoContrasena
          rw [hv]
          simp only [if_pos hval]
      · left
        obtain ⟨a2, b2, h1, h2⟩ :=
          setKey_insAt "contrasena_hash" (.vstr (hashFn contrasena)) k v
            (Ne.symm hk2) a b
        obtain ⟨a3, b3, h3, h4⟩ :=
          delKey_insAt "contrasena" k v (Ne.symm hk) a2 b2
        refine ⟨a3, b3, ?_, ?_⟩
        · unfold pasoContrasena
          rw [hl, hv]
          simp only [if_neg hval, h1, h3]
        · unfold pasoContrasena
          rw [hv]
          simp only [if_neg hval, h2, h4]
    | vbool bb =>
      right
      refine ⟨"TypeError: contrasena", ?_, ?_⟩
      · unfold pasoContrasena
        rw [hl, hv]
      · unfold pasoContrasena
        rw [hv]
    | vint n =>
      right
      refine ⟨"TypeError: contrasena", ?_, ?_⟩
      · unfold pasoContrasena
        rw [hl, hv]
      · unfold pasoContrasena
        rw [hv]
    | vnone =>
      right
      refine ⟨"TypeError: contrasena", ?_, ?_⟩
      · unfold pasoContrasena
        rw [hl, hv]
      · unfold pasoContrasena
        rw [hv]

/-- Inserting an entry whose key names no attribute and is none of the
five specially validated keys anywhere into the patch leaves
`actualizar_usuario` unchanged. -/
theorem actualizar_usuario_insAt (hashFn : String → String) (now : Int)
    (db : List Usuario) (usuario_id : Int) (k : String) (v : PyVal)
    (hattr : usuarioAttrs.contains k = false)
    (hk : k ∉ (["email", "telefono", "nombre", "nombre_usuario",
      "contrasena"] : List String)) (a b : Patch) :
    actualizar_usuario hashFn now db usuario_id (a ++ (k, v) :: b) =
      actualizar_usuario hashFn now db usuario_id (a ++ b) := by
  have hke : k ≠ "email" := fun h => hk (by rw [h]; decide)
  have hkt : k ≠ "telefono" := fun h => hk (by rw [h]; decide)
  have hkn : k ≠ "nombre" := fun h => hk (by rw [h]; decide)
  have hknu : k ≠ "nombre_usuario" := fun h => hk (by rw [h]; decide)
  have hkc : k ≠ "contrasena" := fun h => hk (by rw [h]; decide)
  have hkch : k ≠ "contrasena_hash" := by
    intro h
    rw [h] at hattr
    exact absurd hattr (by decide)
  unfold actualizar_usuario
  cases ho : obtener_usuario db usuario_id with
  | none => rfl
  | some u =>
    rcases pasoEmail_insAt db usuario_id k v hke a b with
      ⟨a1, b1, hq1, hp1⟩ | ⟨e, hq, hp⟩
    · rw [hq1, hp1]
      simp only [except_bind_ok]
      rcases pasoTelefono_insAt k v hkt a1 b1 with
        ⟨a2, b2, hq2, hp2⟩ | ⟨e, hq, hp⟩
      · rw [hq2, hp2]
        simp only [except_bind_ok]
        rcases pasoNombre_insAt k v hkn a2 b2 with
          ⟨a3, b3, hq3, hp3⟩ | ⟨e, hq, hp⟩
        · rw [hq3, hp3]
          simp only [except_bind_ok]
          rcases pasoNombreUsuario_insAt db usuario_id k v hknu a3 b3 with
            ⟨a4, b4, hq4, hp4⟩ | ⟨e, hq, hp⟩
          · rw [hq4, hp4]
            simp only [except_bind_ok]
            rcases pasoContrasena_insAt hashFn k v hkc hkch a4 b4 with
              ⟨a5, b5, hq5, hp5⟩ | ⟨e, hq, hp⟩
            · rw [hq5, hp5]
              simp only [except_bind_ok]
              rw [applyPatch_insAt k v hattr a5 b5 u]
            · rw [hq, hp]
          · rw [hq, hp]
        · rw [hq, hp]
      · rw [hq, hp]
    · rw [hq, hp]

/-! ### Field preservation of the apply loop -/

theorem pySetattr_id_ne (u : Usuario) (k : String) (v : PyVal)
    (h : k ≠ "id") : (pySetattr u k v).id = u.id := by
  simp only [pySetattr]
  rw [if_neg h]

theorem pySetattr_nombre_ne (u : Usuario) (k : String) (v : PyVal)
    (h : k ≠ "nombre") : (pySetattr u k v).nombre = u.nombre := by
  simp only [pySetattr]
  rw [if_neg h]

theorem pySetattr_nombre_usuario_ne (u : Usuario) (k : String) (v : PyVal)
    (h : k ≠ "nombre_usuario") :
    (pySetattr u k v).nombre_usuario = u.nombre_usuario := by
  simp only [pySetattr]
  rw [if_neg h]

theorem pySetattr_email_ne (u : Usuario) (k : String) (v : PyVal)
    (h : k ≠ "email") : (pySetattr u k v).email = u.email := by
  simp only [pySetattr]
  rw [if_neg h]

theorem pySetattr_telefono_ne (u : Usuario) (k : String) (v : PyVal)
    (h : k ≠ "telefono") : (pySetattr u k v).telefono = u.telefono := by
  simp only [pySetattr]
  rw [if_neg h]

theorem pySetattr_contrasena_hash_ne (u : Usuario) (k : String) (v : PyVal)
    (h : k ≠ "contrasena_hash") :
    (pySetattr u k v).contrasena_hash = u.contrasena_hash := by
  simp only [pySetattr]
  rw [if_neg h]

theorem pySetattr_edad_ne (u : Usuario) (k : String) (v : PyVal)
    (h : k ≠ "edad") : (pySetattr u k v).edad = u.edad := by
  simp only [pySetattr]
  rw [if_neg h]

theorem pySetattr_saldo_inicial_ne (u : Usuario) (k : String) (v : PyVal)
    (h : k ≠ "saldo_inicial") :
    (pySetattr u k v).saldo_inicial = u.saldo_inicial := by
  simp only [pySetattr]
  rw [if_neg h]

theorem pySetattr_activo_ne (u : Usuario) (k : String) (v : PyVal)
    (h : k ≠ "activo") : (pySetattr u k v).activo = u.activo := by
  simp only [pySetattr]
  rw [if_neg h]

theorem pySetattr_es_admin_ne (u : Usuario) (k : String) (v : PyVal)
    (h : k ≠ "es_admin") : (pySetattr u k v).es_admin = u.es_admin := by
  simp only [pySetattr]
  rw [if_neg h]

theorem pySetattr_fecha_registro_ne (u : Usuario) (k : String) (v : PyVal)
    (h : k ≠ "fecha_registro") :
    (pySetattr u k v).fecha_registro = u.fecha_registro := by
  simp only [pySetattr]
  rw [if_neg h]

theorem applyPatch_field {α : Type} (proj : Usuario → α) (key : String)
    (hproj : ∀ u k2 v2, k2 ≠ key → proj (pySetattr u k2 v2) = proj u)
    (p : Patch) : ∀ u : Usuario, lookupKey key p = none →
    proj (applyPatch u p) = proj u := by
  induction p with
  | nil =>
    intro u _
    rfl
  | cons kv rest ih =>
    obtain ⟨k2, v2⟩ := kv
    intro u h
    simp only [lookupKey] at h
    by_cases hk2 : k2 = key
    · rw [if_pos hk2] at h
      exact absurd h (by simp)
    · rw [if_neg hk2] at h
      simp only [applyPatch]
      refine (ih _ h).trans ?_
      split
      · exact hproj u k2 v2 hk2
      · rfl

/-! ### The validation blocks touch only their own keys -/

theorem pasoEmail_none (db : List Usuario) (usuario_id : Int) (p : Patch)
    (h : lookupKey "email" p = none) :
    pasoEmail db usuario_id p = Except.ok p := by
  unfold pasoEmail
  rw [h]

theorem pasoTelefono_none (p : Patch)
    (h : lookupKey "telefono" p = none) :
    pasoTelefono p = Except.ok p := by
  unfold pasoTelefono
  rw [h]

theorem pasoNombre_none (p : Patch)
    (h : lookupKey "nombre" p = none) :
    pasoNombre p = Except.ok p := by
  unfold pasoNombre
  rw [h]

theorem pasoNombreUsuario_none (db : List Usuario) (usuario_id : Int)
    (p : Patch) (h : lookupKey "nombre_usuario" p = none) :
    pasoNombreUsuario db usuario_id p = Except.ok p := by
  unfold pasoNombreUsuario
  rw [h]

theorem pasoContrasena_none (hashFn : String → String) (p : Patch)
    (h : lookupKey "contrasena" p = none) :
    pasoContrasena hashFn p = Except.ok p := by
  unfold pasoContrasena
  rw [h]

theorem pasoEmail_lookup (db : List Usuario) (usuario_id : Int)
    (p p2 : Patch) (h : pasoEmail db usuario_id p = Except.ok p2)
    (k2 : String) (hk2 : k2 ≠ "email") :
    lookupKey k2 p2 = lookupKey k2 p := by
  unfold pasoEmail at h
  split at h
  · injection h with h
    rw [← h]
  · split at h
    · exact absurd h (by simp)
    · split at h
      · split at h
        · exact absurd h (by simp)
        · injection h with h
          rw [← h]
          exact lookupKey_setKey_ne k2 "email" _ p hk2
      · injection h with h
        rw [← h]
        exact lookupKey_setKey_ne k2 "email" _ p hk2
  · exact absurd h (by simp)

theorem pasoTelefono_lookup (p p2 : Patch)
    (h : pasoTelefono p = Except.ok p2) (k2 : String)
    (hk2 : k2 ≠ "telefono") :
    lookupKey k2 p2 = lookupKey k2 p := by
  unfold pasoTelefono at h
  split at h
  · injection h with h
    rw [← h]
  · split at h
    · injection h with h
      rw [← h]
    · split at h
      · split at h
        · exact absurd h (by simp)
        · injection h with h
          rw [← h]
          exact lookupKey_setKey_ne k2 "telefono" _ p hk2
      · exact absurd h (by simp)

theorem pasoNombre_lookup (p p2 : Patch)
    (h : pasoNombre p = Except.ok p2) (k2 : String) (hk2 : k2 ≠ "nombre") :
    lookupKey k2 p2 = lookupKey k2 p := by
  unfold pasoNombre at h
  split at h
  · injection h with h
    rw [← h]
  · split at h
    · exact absurd h (by simp)
    · split at h
      · exact absurd h (by simp)
      · injection h with h
        rw [← h]
        exact lookupKey_setKey_ne k2 "nombre" _ p hk2
  · exact absurd h (by simp)

theorem pasoNombreUsuario_lookup (db : List Usuario) (usuario_id : Int)
    (p p2 : Patch) (h : pasoNombreUsuario db usuario_id p = Except.ok p2)
    (k2 : String) (hk2 : k2 ≠ "nombre_usuario") :
    lookupKey k2 p2 = lookupKey k2 p := by
  unfold pasoNombreUsuario at h
  split at h
  · injection h with h
    rw [← h]
  · split at h
    · exact absurd h (by simp)
    · split at h
      · split at h
        · exact absurd h (by simp)
        · injection h with h
          rw [← h]
          exact lookupKey_setKey_ne k2 "nombre_usuario" _ p hk2
      · injection h with h
        rw [← h]
        exact lookupKey_setKey_ne k2 "nombre_usuario" _ p hk2
  · exact absurd h (by simp)

theorem pasoContrasena_lookup (hashFn : String → String) (p p2 : Patch)
    (h : pasoContrasena hashFn p = Except.ok p2) (k2 : String)
    (hk2 : k2 ≠ "contrasena") (hk3 : k2 ≠ "contrasena_hash") :
    lookupKey k2 p2 = lookupKey k2 p := by
  unfold pasoContrasena at h
  split at h
  · injection h with h
    rw [← h]
  · split at h
    · exact absurd h (by simp)
    · injection h with h
      rw [← h]
      rw [lookupKey_delKey_ne k2 "contrasena" _ hk2]
      exact lookupKey_setKey_ne k2 "contrasena_hash" _ p hk3
  · exact absurd h (by simp)

/-- Claim C10 counterexample: the key "contrasena" names no attribute of
the Usuario record, yet a patch containing it is not silently ignored:
`actualizar_usuario` validates it and raises for a weak password. -/
theorem actualizar_usuario_contrasena_key_counterexample :
    usuarioAttrs.contains "contrasena" = false ∧
    actualizar_usuario (fun p => "73:" ++ p) 5 [sampleAlice] 1
      [("contrasena", PyVal.vstr "x")] =
      Except.error
        "Contraseña inválida: La contraseña debe tener al menos 8 caracteres" :=
  ⟨by decide, by rfl⟩

/-- Claim C10 amended: a patch entry whose key names no attribute of the
record and is none of the five specially validated keys (email,
telefono, nombre, nombre_usuario, contrasena) is silently ignored
wherever it sits in the patch — no error, no change of result; and on a
successful update every field whose key the patch does not contain
keeps its prior value, except the update timestamp, while every other
row is untouched. -/
theorem actualizar_usuario_unknown_keys_spec
    (hashFn : String → String) (now : Int) (db : List Usuario)
    (usuario_id : Int) (kwargs : Patch) :
    (∀ (k : String) (v : PyVal) (a b : Patch),
      usuarioAttrs.contains k = false →
      k ∉ (["email", "telefono", "nombre", "nombre_usuario",
        "contrasena"] : List String) →
      kwargs = a ++ b →
      actualizar_usuario hashFn now db usuario_id (a ++ (k, v) :: b) =
        actualizar_usuario hashFn now db usuario_id kwargs) ∧
    (∀ u u2 db2, obtener_usuario db usuario_id = some u →
      actualizar_usuario hashFn now db usuario_id kwargs =
        Except.ok (some (u2, db2)) →
      (lookupKey "id" kwargs = none → u2.id = u.id) ∧
      (lookupKey "nombre" kwargs = none → u2.nombre = u.nombre) ∧
      (lookupKey "nombre_usuario" kwargs = none →
        u2.nombre_usuario = u.nombre_usuario) ∧
      (lookupKey "email" kwargs = none → u2.email = u.email) ∧
      (lookupKey "telefono" kwargs = none → u2.telefono = u.telefono) ∧
      (lookupKey "contrasena" kwargs = none →
        lookupKey "contrasena_hash" kwargs = none →
        u2.contrasena_hash = u.contrasena_hash) ∧
      (lookupKey "edad" kwargs = none → u2.edad = u.edad) ∧
      (lookupKey "saldo_inicial" kwargs = none →
        u2.saldo_inicial = u.saldo_inicial) ∧
      (lookupKey "activo" kwargs = none → u2.activo = u.activo) ∧
      (lookupKey "es_admin" kwargs = none → u2.es_admin = u.es_admin) ∧
      (lookupKey "fecha_registro" kwargs = none →
        u2.fecha_registro = u.fecha_registro) ∧
      u2.fecha_actualizacion = now ∧
      db2 = db.map (fun x => if x.id = usuario_id then u2 else x)) := by
  constructor
  · intro k v a b hattr hk hsplit
    subst hsplit
    exact actualizar_usuario_insAt hashFn now db usuario_id k v hattr hk a b
  · intro u u2 db2 ho hok
    unfold actualizar_usuario at hok
    split at hok
    · simp at hok
    · rename_i usuario heq
      rw [ho] at heq
      injection heq with heq
      subst heq
      cases h1 : pasoEmail db usuario_id kwargs with
      | error e =>
        rw [h1, except_bind_error] at hok
        exact absurd hok (by simp)
      | ok q1 =>
        simp only [h1, except_bind_ok] at hok
        cases h2 : pasoTelefono q1 with
        | error e =>
          rw [h2, except_bind_error] at hok
          exact absurd hok (by simp)
        | ok q2 =>
          simp only [h2, except_bind_ok] at hok
          cases h3 : pasoNombre q2 with
          | error e =>
            rw [h3, except_bind_error] at hok
            exact absurd hok (by simp)
          | ok q3 =>
            simp only [h3, except_bind_ok] at hok
            cases h4 : pasoNombreUsuario db usuario_id q3 with
            | error e =>
              rw [h4, except_bind_error] at hok
              exact absurd hok (by simp)
            | ok q4 =>
              simp only [h4, except_bind_ok] at hok
              cases h5 : pasoContrasena hashFn q4 with
              | error e =>
                rw [h5, except_bind_error] at hok
                exact absurd hok (by simp)
              | ok q5 =>
                simp only [h5, except_bind_ok] at hok
                injection hok with hok
                injection hok with hok
                injection hok with hu2 hdb2
                subst hu2
                subst hdb2
                refine ⟨?_, ?_, ?_, ?_, ?_, ?_, ?_, ?_, ?_, ?_, ?_, rfl, rfl⟩
                · intro hn
                  have l1 := pasoEmail_lookup db usuario_id kwargs q1 h1
                    "id" (by decide)
                  have l2 := pasoTelefono_lookup q1 q2 h2 "id" (by decide)
                  have l3 := pasoNombre_lookup q2 q3 h3 "id" (by decide)
                  have l4 := pasoNombreUsuario_lookup db usuario_id q3 q4 h4
                    "id" (by decide)
                  have l5 := pasoContrasena_lookup hashFn q4 q5 h5 "id"
                    (by decide) (by decide)
                  have hn5 : lookupKey "id" q5 = none := by
                    rw [l5, l4, l3, l2, l1, hn]
                  exact applyPatch_field (fun x => x.id) "id"
                    (fun x k2 v2 hke => pySetattr_id_ne x k2 v2 hke) q5 u hn5
                · intro hn
                  have e3 : pasoNombre q2 = Except.ok q2 := by
                    apply pasoNombre_none
                    rw [pasoTelefono_lookup q1 q2 h2 "nombre" (by decide),
                      pasoEmail_lookup db usuario_id kwargs q1 h1 "nombre"
                        (by decide), hn]
                  have hq3 : q3 = q2 := Except.ok.inj (h3.symm.trans e3)
                  have l4 := pasoNombreUsuario_lookup db usuario_id q3 q4 h4
                    "nombre" (by decide)
                  have l5 := pasoContrasena_lookup hashFn q4 q5 h5 "nombre"
                    (by decide) (by decide)
                  have hn5 : lookupKey "nombre" q5 = none := by
                    rw [l5, l4, hq3,
                      pasoTelefono_lookup q1 q2 h2 "nombre" (by decide),
                      pasoEmail_lookup db usuario_id kwargs q1 h1 "nombre"
                        (by decide), hn]
                  exact applyPatch_field (fun x => x.nombre) "nombre"
                    (fun x k2 v2 hke => pySetattr_nombre_ne x k2 v2 hke)
                    q5 u hn5
                · intro hn
                  have l1 := pasoEmail_lookup db usuario_id kwargs q1 h1
                    "nombre_usuario" (by decide)
                  have l2 := pasoTelefono_lookup q1 q2 h2 "nombre_usuario"
                    (by decide)
                  have l3 := pasoNombre_lookup q2 q3 h3 "nombre_usuario"
                    (by decide)
                  have e4 : pasoNombreUsuario db usuario_id q3 =
                      Except.ok q3 := by
                    apply pasoNombreUsuario_none
                    rw [l3, l2, l1, hn]
                  have hq4 : q4 = q3 := Except.ok.inj (h4.symm.trans e4)
                  have l5 := pasoContrasena_lookup hashFn q4 q5 h5
                    "nombre_usuario" (by decide) (by decide)
                  have hn5 : lookupKey "nombre_usuario" q5 = none := by
                    rw [l5, hq4, l3, l2, l1, hn]
                  exact applyPatch_field (fun x => x.nombre_usuario)
                    "nombre_usuario"
                    (fun x k2 v2 hke =>
                      pySetattr_nombre_usuario_ne x k2 v2 hke) q5 u hn5
                · intro hn
                  have e1 : pasoEmail db usuario_id kwargs =
                      Except.ok kwargs := pasoEmail_none db usuario_id kwargs hn
                  have hq1 : q1 = kwargs := Except.ok.inj (h1.symm.trans e1)
                  have l2 := pasoTelefono_lookup q1 q2 h2 "email"
                    (by decide)
                  have l3 := pasoNombre_lookup q2 q3 h3 "email" (by decide)
                  have l4 := pasoNombreUsuario_lookup db usuario_id q3 q4 h4
                    "email" (by decide)
                  have l5 := pasoContrasena_lookup hashFn q4 q5 h5 "email"
                    (by decide) (by decide)
                  have hn5 : lookupKey "email" q5 = none := by
                    rw [l5, l4, l3, l2, hq1, hn]
                  exact applyPatch_field (fun x => x.email) "email"
                    (fun x k2 v2 hke => pySetattr_email_ne x k2 v2 hke)
                    q5 u hn5
                · intro hn
                  have l1 := pasoEmail_lookup db usuario_id kwargs q1 h1
                    "telefono" (by decide)
                  have e2 : pasoTelefono q1 = Except.ok q1 := by
                    apply pasoTelefono_none
                    rw [l1, hn]
                  have hq2 : q2 = q1 := Except.ok.inj (h2.symm.trans e2)
                  have l3 := pasoNombre_lookup q2 q3 h3 "telefono" (by decide)
                  have l4 := pasoNombreUsuario_lookup db usuario_id q3 q4 h4
                    "telefono" (by decide)
                  have l5 := pasoContrasena_lookup hashFn q4 q5 h5 "telefono"
                    (by decide) (by decide)
                  have hn5 : lookupKey "telefono" q5 = none := by
                    rw [l5, l4, l3, hq2, l1, hn]
                  exact applyPatch_field (fun x => x.telefono) "telefono"
                    (fun x k2 v2 hke => pySetattr_telefono_ne x k2 v2 hke)
                    q5 u hn5
                · intro hn hn2
                  have l1 := pasoEmail_lookup db usuario_id kwargs q1 h1
                  have l2 := pasoTelefono_lookup q1 q2 h2
                  have l3 := pasoNombre_lookup q2 q3 h3
                  have l4 := pasoNombreUsuario_lookup db usuario_id q3 q4 h4
                  have e5 : pasoContrasena hashFn q4 = Except.ok q4 := by
                    apply pasoContrasena_none
                    rw [l4 "contrasena" (by decide), l3 "contrasena"
                      (by decide), l2 "contrasena" (by decide),
                      l1 "contrasena" (by decide), hn]
                  have hq5 : q5 = q4 := Except.ok.inj (h5.symm.trans e5)
                  have hn5 : lookupKey "contrasena_hash" q5 = none := by
                    rw [hq5, l4 "contrasena_hash" (by decide),
                      l3 "contrasena_hash" (by decide),
                      l2 "contrasena_hash" (by decide),
                      l1 "contrasena_hash" (by decide), hn2]
                  exact applyPatch_field (fun x => x.contrasena_hash)
                    "contrasena_hash"
                    (fun x k2 v2 hke =>
                      pySetattr_contrasena_hash_ne x k2 v2 hke) q5 u hn5
                · intro hn
                  have hn5 : lookupKey "edad" q5 = none := by
                    rw [pasoContrasena_lookup hashFn q4 q5 h5 "edad"
                      (by decide) (by decide),
                      pasoNombreUsuario_lookup db usuario_id q3 q4 h4 "edad"
                        (by decide),
                      pasoNombre_lookup q2 q3 h3 "edad" (by decide),
                      pasoTelefono_lookup q1 q2 h2 "edad" (by decide),
                      pasoEmail_lookup db usuario_id kwargs q1 h1 "edad"
                        (by decide), hn]
                  exact applyPatch_field (fun x => x.edad) "edad"
                    (fun x k2 v2 hke => pySetattr_edad_ne x k2 v2 hke) q5 u hn5
                · intro hn
                  have hn5 : lookupKey "saldo_inicial" q5 = none := by
                    rw [pasoContrasena_lookup hashFn q4 q5 h5 "saldo_inicial"
                      (by decide) (by decide),
                      pasoNombreUsuario_lookup db usuario_id q3 q4 h4
                        "saldo_inicial" (by decide),
                      pasoNombre_lookup q2 q3 h3 "saldo_inicial" (by decide),
                      pasoTelefono_lookup q1 q2 h2 "saldo_inicial"
                        (by decide),
                      pasoEmail_lookup db usuario_id kwargs q1 h1
                        "saldo_inicial" (by decide), hn]
                  exact applyPatch_field (fun x => x.saldo_inicial)
                    "saldo_inicial"
                    (fun x k2 v2 hke =>
                      pySetattr_saldo_inicial_ne x k2 v2 hke) q5 u hn5
                · intro hn
                  have hn5 : lookupKey "activo" q5 = none := by
                    rw [pasoContrasena_lookup hashFn q4 q5 h5 "activo"
                      (by decide) (by decide),
                      pasoNombreUsuario_lookup db usuario_id q3 q4 h4 "activo"
                        (by decide),
                      pasoNombre_lookup q2 q3 h3 "activo" (by decide),
                      pasoTelefono_lookup q1 q2 h2 "activo" (by decide),
                      pasoEmail_lookup db usuario_id kwargs q1 h1 "activo"
                        (by decide), hn]
                  exact applyPatch_field (fun x => x.activo) "activo"
                    (fun x k2 v2 hke => pySetattr_activo_ne x k2 v2 hke)
                    q5 u hn5
                · intro hn
                  have hn5 : lookupKey "es_admin" q5 = none := by
                    rw [pasoContrasena_lookup hashFn q4 q5 h5 "es_admin"
                      (by decide) (by decide),
                      pasoNombreUsuario_lookup db usuario_id q3 q4 h4
                        "es_admin" (by decide),
                      pasoNombre_lookup q2 q3 h3 "es_admin" (by decide),
                      pasoTelefono_lookup q1 q2 h2 "es_admin" (by decide),
                      pasoEmail_lookup db usuario_id kwargs q1 h1 "es_admin"
                        (by decide), hn]
                  exact applyPatch_field (fun x => x.es_admin) "es_admin"
                    (fun x k2 v2 hke => pySetattr_es_admin_ne x k2 v2 hke)
                    q5 u hn5
                · intro hn
                  have hn5 : lookupKey "fecha_registro" q5 = none := by
                    rw [pasoContrasena_lookup hashFn q4 q5 h5 "fecha_registro"
                      (by decide) (by decide),
                      pasoNombreUsuario_lookup db usuario_id q3 q4 h4
                        "fecha_registro" (by decide),
                      pasoNombre_lookup q2 q3 h3 "fecha_registro" (by decide),
                      pasoTelefono_lookup q1 q2 h2 "fecha_registro"
                        (by decide),
                      pasoEmail_lookup db usuario_id kwargs q1 h1
                        "fecha_registro" (by decide), hn]
                  exact applyPatch_field (fun x => x.fecha_registro)
                    "fecha_registro"
                    (fun x k2 v2 hke =>
                      pySetattr_fecha_registro_ne x k2 v2 hke) q5 u hn5

/-- Witness for C10 amended, on a concrete store: appending an unknown
key to a patch changes nothing, and a patch updating only the balance
leaves the name field untouched. -/
theorem actualizar_usuario_unknown_keys_spec_witness :
    actualizar_usuario (fun p => p) 5 [sampleAlice] 1
      ([("saldo_inicial", PyVal.vint 7)] ++ [("foo", PyVal.vint 9)]) =
      actualizar_usuario (fun p => p) 5 [sampleAlice] 1
        [("saldo_inicial", PyVal.vint 7)] ∧
    ({ sampleAlice with saldo_inicial := some 7, fecha_actualizacion := 5 } : Usuario).nombre = sampleAlice.nombre := by
  constructor
  · exact (actualizar_usuario_unknown_keys_spec (fun p => p) 5 [sampleAlice]
      1 [("saldo_inicial", PyVal.vint 7)]).1 "foo" (PyVal.vint 9)
      [("saldo_inicial", PyVal.vint 7)] [] (by decide) (by decide) rfl
  · exact ((actualizar_usuario_unknown_keys_spec (fun p => p) 5 [sampleAlice]
      1 [("saldo_inicial", PyVal.vint 7)]).2 sampleAlice
      { sampleAlice with saldo_inicial := some 7, fecha_actualizacion := 5 }
      [{ sampleAlice with saldo_inicial := some 7, fecha_actualizacion := 5 }]
      (by rfl) (by rfl)).2.1 (by rfl)
